import Mathlib

/-!
Verification of the repository-migration pipeline (platform detection,
architecture analysis, app-spec and checklist generation).

The Python sources under `skills/migration/scripts/` are shallowly embedded:

* `detect_platform.py`   — `PlatformDetector` (snapshot scanning, indicator table,
  `detect()`),
* `analyze_architecture.py` — `ArchitectureAnalyzer` (`analyze()` and its
  sub-analyses),
* `generate_app_spec.py` — `AppSpecGenerator` (`generate()`,
  `generate_deploy_template()`, `get_migration_report()`),
* `generate_checklist.py` — the decision-count slice of `generate_checklist()`.

Modelling conventions:

* Python strings are Lean `String`s, but every string operation used by the
  sources (`split`, `strip`, `lower`, `in`, `int(...)`, ...) is re-implemented
  here over `String.data : List Char` with Python semantics, so that all
  definitions evaluate inside the kernel.
* Python `set`s of paths are `List String` (the claims proved here only use
  membership, which is order-insensitive).
* YAML/JSON payloads are embedded post-parse: a repository carries the parsed
  form of each manifest (`none` standing for a read or parse exception), since
  the sources delegate parsing to `yaml.safe_load` / `json.loads`.
* The one statement-level exception that the analyzer can raise (the unguarded
  `int(...)` on a docker-compose port mapping) is modelled with `Except`;
  everything else in `analyze()` is total, as in the source where every other
  parse is wrapped in `try/except`.
-/

deriving instance DecidableEq for Except

namespace Migration

/-! ## Python string primitives (re-implemented so they evaluate) -/

/-- Python `s.lower()`. -/
def lowerStr (s : String) : String := ⟨s.data.map Char.toLower⟩

/-- Python `s.upper()`. -/
def upperStr (s : String) : String := ⟨s.data.map Char.toUpper⟩

/-- Python `needle in hay` for strings (substring test; the empty needle
matches everything, as in Python). -/
def containsSub (hay needle : String) : Bool :=
  hay.data.tails.any (fun t => needle.data.isPrefixOf t)

/-- Python `s.startswith(pre)`. -/
def pyStartsWith (s pre : String) : Bool := pre.data.isPrefixOf s.data

/-- Python `s.endswith(suf)`. -/
def pyEndsWith (s suf : String) : Bool := suf.data.isSuffixOf s.data

/-- Python `x in l` for a collection of strings. -/
def pyIn (x : String) (l : List String) : Bool := l.any (fun y => y == x)

/-- Fuel-driven worker for `pySplit`; the fuel starts at the length of the
string, which each step strictly consumes, so the `0` branch is unreachable. -/
def splitOnGo (sep : List Char) : Nat → List Char → List Char → List (List Char)
  | _, [], acc => [acc.reverse]
  | 0, cs, acc => [acc.reverse ++ cs]
  | fuel+1, c :: rest, acc =>
      if sep.isPrefixOf (c :: rest) then
        acc.reverse :: splitOnGo sep fuel (List.drop (sep.length - 1) rest) []
      else
        splitOnGo sep fuel rest (c :: acc)

/-- Python `s.split(sep)` for a non-empty separator. -/
def pySplit (s sep : String) : List String :=
  if sep.data.isEmpty then [s]
  else (splitOnGo sep.data s.data.length s.data []).map (fun l => ⟨l⟩)

/-- Python `sep.join(l)`. -/
def joinWith (sep : String) : List String → String
  | [] => ""
  | [x] => x
  | x :: xs => x ++ sep ++ joinWith sep xs

/-- Python `s.split(sep, 1)`: the part before the first separator, and the
rest rejoined. Only called when the separator occurs in `s`. -/
def pySplit1 (s sep : String) : String × String :=
  match pySplit s sep with
  | [] => (s, "")
  | p :: ps => (p, joinWith sep ps)

/-- Fuel-driven worker for `pySplitWs`. -/
def pySplitWsGo : Nat → List Char → List (List Char)
  | _, [] => []
  | 0, cs => [cs]
  | fuel+1, c :: rest =>
      if c.isWhitespace then pySplitWsGo fuel rest
      else
        (c :: rest).takeWhile (fun d => !d.isWhitespace) ::
          pySplitWsGo fuel ((c :: rest).dropWhile (fun d => !d.isWhitespace))

/-- Python `s.split()` (split on whitespace runs, dropping empty pieces). -/
def pySplitWs (s : String) : List String :=
  (pySplitWsGo s.data.length s.data).map (fun l => ⟨l⟩)

/-- Python `s.strip()`. -/
def pyStrip (s : String) : String :=
  ⟨((s.data.dropWhile Char.isWhitespace).reverse.dropWhile Char.isWhitespace).reverse⟩

/-- Python `s.strip(chars)` for an explicit character set. -/
def pyStripChars (cset : List Char) (s : String) : String :=
  ⟨((s.data.dropWhile (cset.contains ·)).reverse.dropWhile (cset.contains ·)).reverse⟩

/-- Decimal value of a digit list. -/
def digitsVal (ds : List Char) : Nat := ds.foldl (fun a c => a * 10 + (c.toNat - 48)) 0

/-- Python `int(s)`: strips whitespace, accepts an optional sign followed by
decimal digits, raises `ValueError` otherwise. (Pythonic extras such as
underscore separators are not modelled; no input in this development uses
them.) -/
def pyInt (s : String) : Except String Int :=
  let cs := (pyStrip s).data
  match cs with
  | '-' :: rest =>
      if rest ≠ [] ∧ rest.all Char.isDigit then .ok (-(digitsVal rest : Int))
      else .error ("invalid literal for int: " ++ s)
  | '+' :: rest =>
      if rest ≠ [] ∧ rest.all Char.isDigit then .ok (digitsVal rest : Int)
      else .error ("invalid literal for int: " ++ s)
  | _ =>
      if cs ≠ [] ∧ cs.all Char.isDigit then .ok (digitsVal cs : Int)
      else .error ("invalid literal for int: " ++ s)

/-! ## Filesystem trees and the two snapshot scanners

A repository root is a tree of named files and directories. Relative paths are
modelled as component lists; `renderPath` produces the `os.path.relpath`
forward-slash string, and `relRootStr` the `rel_root` string that
`PlatformDetector._scan_files` tests (`"."` for the top directory, exactly as
`os.path.relpath(root, root)` yields). -/

/-- One entry of a directory: a file or a subdirectory with its children. -/
inductive FSEntry where
  | file (name : String)
  | dir (name : String) (children : List FSEntry)

/-- Forward-slash rendering of a component path. -/
def renderPath (p : List String) : String := joinWith "/" p

/-- The `rel_root` string for the directory reached by prefix `pfx`. -/
def relRootStr (pfx : List String) : String :=
  if pfx.isEmpty then "." else renderPath pfx

/-- The noise-directory name fragments skipped by
`PlatformDetector._scan_files` (substring match against `rel_root`). -/
def pdSkipFragments : List String :=
  [".git", "node_modules", "venv", "__pycache__", ".next", "dist", "build"]

/-- Embedding of `PlatformDetector._scan_files`: walk every directory; a directory whose
relative path contains a noise fragment as a substring contributes no files,
but the walk still descends (as `os.walk` without pruning does). -/
def pdScanFiles (pfx : List String) : List FSEntry → List (List String)
  | [] => []
  | .file n :: es =>
      (if pdSkipFragments.any (fun s => containsSub (relRootStr pfx) s) then []
       else [pfx ++ [n]]) ++ pdScanFiles pfx es
  | .dir n cs :: es => pdScanFiles (pfx ++ [n]) cs ++ pdScanFiles pfx es

/-- Embedding of `PlatformDetector._scan_dirs`: collects every directory path, with no
pruning of any kind. -/
def pdScanDirs (pfx : List String) : List FSEntry → List (List String)
  | [] => []
  | .file _ :: es => pdScanDirs pfx es
  | .dir n cs :: es => (pfx ++ [n]) :: (pdScanDirs (pfx ++ [n]) cs ++ pdScanDirs pfx es)

/-- The skip set of `ArchitectureAnalyzer._scan_files` (exact directory-name
match; note the extra `.cache` relative to the detector). -/
def aaSkipDirs : List String :=
  [".git", "node_modules", "venv", "__pycache__", ".next", "dist", "build", ".cache"]

/-- Embedding of `ArchitectureAnalyzer._scan_files`: prunes a skip-named directory before
descending (`dirs[:] = [d for d in dirs if d not in skip_dirs]`). -/
def aaScanFiles (pfx : List String) : List FSEntry → List (List String)
  | [] => []
  | .file n :: es => (pfx ++ [n]) :: aaScanFiles pfx es
  | .dir n cs :: es =>
      (if pyIn n aaSkipDirs then [] else aaScanFiles (pfx ++ [n]) cs) ++ aaScanFiles pfx es

/-! ## Construction (`__init__`) of the two pipeline classes

Both constructors check only `Path(repo_path).exists()`; a root that exists
but is not a directory passes the check, and `os.walk` over it simply yields
nothing, so the snapshot is empty. -/

/-- What the constructor argument points at. -/
inductive RootTarget where
  | absent
  | nondirectory
  | directory (entries : List FSEntry)

/-- The snapshot state owned by a constructed `PlatformDetector`. -/
structure PDState where
  files : List String
  dirs : List String
deriving DecidableEq

/-- Embedding of `PlatformDetector.__init__`: raises `ValueError` only when the path does
not exist; otherwise builds the file and directory snapshots. -/
def PlatformDetector.init : RootTarget → Except String PDState
  | .absent => .error "Repository path does not exist"
  | .nondirectory => .ok ⟨[], []⟩
  | .directory es => .ok ⟨(pdScanFiles [] es).map renderPath, (pdScanDirs [] es).map renderPath⟩

/-- Embedding of `ArchitectureAnalyzer.__init__`: raises `ValueError` only when the path
does not exist; otherwise builds the (pruned) file snapshot. -/
def ArchitectureAnalyzer.init : RootTarget → Except String (List String)
  | .absent => .error "Repository path does not exist"
  | .nondirectory => .ok []
  | .directory es => .ok ((aaScanFiles [] es).map renderPath)

/-! ## PlatformDetector: indicator table and `detect()` -/

/-- One row of `PLATFORM_INDICATORS` (absent matcher kinds become `[]`). -/
structure Indicator where
  platform : String
  files : List String
  patterns : List String
  dirs : List String
  priority : Nat
  description : String
deriving DecidableEq

/-- The `PLATFORM_INDICATORS` table, in Python dict insertion order. -/
def PLATFORM_INDICATORS : List Indicator :=
  [ ⟨"heroku", ["Procfile", "app.json", "heroku.yml"], [], [], 1, "Heroku PaaS"⟩,
    ⟨"render", ["render.yaml", "render.yml"], [], [], 2, "Render PaaS"⟩,
    ⟨"railway", ["railway.json", "railway.toml"], [], [], 2, "Railway PaaS"⟩,
    ⟨"fly", ["fly.toml"], [], [], 2, "Fly.io"⟩,
    ⟨"docker_compose",
      ["docker-compose.yml", "docker-compose.yaml", "compose.yml", "compose.yaml"],
      [], [], 3, "Docker Compose"⟩,
    ⟨"aws_ecs", [],
      ["**/task-definition.json", "**/ecs-task-definition.json", ".aws/task-definition.json"],
      [], 4, "AWS ECS"⟩,
    ⟨"aws_apprunner", ["apprunner.yaml", "apprunner.yml"], [], [], 4, "AWS App Runner"⟩,
    ⟨"aws_beanstalk", ["Dockerrun.aws.json"], [], [".elasticbeanstalk"], 4,
      "AWS Elastic Beanstalk"⟩,
    ⟨"generic_docker", ["Dockerfile"], [], [], 10, "Generic Docker"⟩ ]

/-- Embedding of `fnmatch.fnmatch` restricted to the metacharacter the table uses: `*`
matches any character run (including `/`), every other character matches
itself. No table pattern contains `?` or `[`. -/
def globMatch : List Char → List Char → Bool
  | [], s => s.isEmpty
  | '*' :: ps, s => s.tails.any (fun t => globMatch ps t)
  | c :: ps, s =>
      match s with
      | [] => false
      | a :: s' => c == a && globMatch ps s'

/-- Embedding of `PlatformDetector._check_patterns`: every file matching any glob pattern. -/
def checkPatterns (files : List String) (patterns : List String) : List String :=
  patterns.flatMap (fun pat => files.filter (fun f => globMatch pat.data f.data))

/-- The `found_files` list built inside `detect()` for one indicator row. -/
def foundFiles (files : List String) (ind : Indicator) : List String :=
  ind.files.filter (fun f => pyIn f files) ++ checkPatterns files ind.patterns

/-- The `found_dirs` list built inside `detect()` for one indicator row. -/
def foundDirs (dirs : List String) (ind : Indicator) : List String :=
  ind.dirs.filter (fun d => pyIn d dirs)

/-- The `if found_files or found_dirs` test of `detect()`. -/
def indicatorHit (files dirs : List String) (ind : Indicator) : Bool :=
  !(foundFiles files ind).isEmpty || !(foundDirs dirs ind).isEmpty

/-- One entry of the `detected_platforms` list. -/
structure Hit where
  platform : String
  description : String
  priority : Nat
  found_files : List String
  found_dirs : List String
deriving DecidableEq

/-- The hit record `detect()` appends for an indicator row. -/
def mkHit (files dirs : List String) (ind : Indicator) : Hit :=
  ⟨ind.platform, ind.description, ind.priority, foundFiles files ind, foundDirs dirs ind⟩

/-- The `detected_platforms` list before sorting, in table order. -/
def detectedPlatforms (files dirs : List String) : List Hit :=
  (PLATFORM_INDICATORS.filter (fun ind => indicatorHit files dirs ind)).map (mkHit files dirs)

/-- The result dict of `PlatformDetector.detect()`. -/
structure DetectionResult where
  primary_platform : String
  primary_description : String
  config_files : List String
  all_detected : List Hit
  has_dockerfile : Bool
  has_docker_compose : Bool
deriving DecidableEq

/-- The four compose file names tested by `has_docker_compose`. -/
def composeNames4 : List String :=
  ["docker-compose.yml", "docker-compose.yaml", "compose.yml", "compose.yaml"]

/-- Embedding of `PlatformDetector.detect()`: evaluate every indicator, stable-sort the
hits ascending by priority (Python `list.sort` is stable; `insertionSort`
reproduces the same order), and take the first as primary, or the `unknown`
sentinel when nothing hit. -/
def detect (files dirs : List String) : DetectionResult :=
  match List.insertionSort (fun a b : Hit => a.priority ≤ b.priority)
    (detectedPlatforms files dirs) with
  | [] =>
      ⟨"unknown", "Unknown platform", [], [], pyIn "Dockerfile" files,
        composeNames4.any (fun f => pyIn f files)⟩
  | h :: t =>
      ⟨h.platform, h.description, h.found_files, h :: t, pyIn "Dockerfile" files,
        composeNames4.any (fun f => pyIn f files)⟩

/-! ## ArchitectureAnalyzer: repository model

`analyze()` consumes the pruned file snapshot plus the contents of a handful
of specific files. A `Repo` packages that: the snapshot, a raw-text oracle
(`none` = the read raised), and post-parse oracles for the YAML/JSON
manifests (`none` = the read or parse raised; the `services` key of a compose
document is already projected out, with `{}` for a missing key, as
`compose.get('services', {})` does). -/

/-- The Python value found under `build:` of a compose service: absent
(`{}` default), a string, or a mapping with an optional `context` key (a
present mapping is modelled as truthy, i.e. non-empty). -/
inductive BuildVal where
  | absent
  | str (s : String)
  | map (context : Option String)
deriving DecidableEq

/-- Python truthiness of the `build` value (`{}` and `""` are falsy). -/
def BuildVal.truthy : BuildVal → Bool
  | .absent => false
  | .str s => !(s == "")
  | .map _ => true

/-- One value of the compose `services` mapping, post-`yaml.safe_load`.
`ports` holds `str(entry)` for each list element (a flow-style mapping
renders to its `repr`, which is how the long port syntax reaches `int()`). -/
structure ComposeService where
  image : String
  ports : List String
  build : BuildVal
  environment : List String
  command : Option String
deriving DecidableEq

/-- One entry of a `render.yaml` `services` list, post-`yaml.safe_load`
(every key optional, as `service.get` treats them). -/
structure RenderService where
  type : Option String
  name : Option String
  rootDir : Option String
  port : Option Int
  buildCommand : Option String
  startCommand : Option String
  healthCheckPath : Option String
deriving DecidableEq

/-- One entry of the `app.json` `addons` list: a bare string or a mapping,
from which `addon.get('plan', '')` is read. -/
inductive Addon where
  | str (name : String)
  | obj (plan : Option String)
deriving DecidableEq

/-- Embedding of `addon if isinstance(addon, str) else addon.get('plan', '')`. -/
def Addon.name : Addon → String
  | .str s => s
  | .obj p => p.getD ""

/-- A repository as `ArchitectureAnalyzer` observes it. -/
structure Repo where
  files : List String
  readText : String → Option String
  composeParse : String → Option (List (String × ComposeService))
  renderParse : String → Option (List RenderService)
  appJson : Option (List Addon)

/-- Embedding of `ArchitectureAnalyzer._is_infrastructure_service`. -/
def isInfrastructureService (name : String) : Bool :=
  pyIn (lowerStr name)
    ["db", "database", "postgres", "postgresql", "mysql", "mariadb",
     "mongo", "mongodb", "redis", "cache", "memcached", "rabbitmq",
     "kafka", "elasticsearch", "opensearch", "minio", "localstack"]

/-- Embedding of `ArchitectureAnalyzer._is_database_image` (substring match on the
lower-cased image name). -/
def isDatabaseImage (image : String) : Bool :=
  ["postgres", "mysql", "mariadb", "mongo", "redis", "memcached",
   "rabbitmq", "kafka", "elasticsearch", "opensearch", "minio"].any
    (fun db => containsSub (lowerStr image) db)

/-- Embedding of `ArchitectureAnalyzer._parse_docker_compose_services`: first compose file
name that is present and parses wins; a parse exception falls through to the
next name; nothing parseable yields `{}`. -/
def parseDockerComposeServices (r : Repo) : List (String × ComposeService) :=
  go composeNames4
where
  go : List String → List (String × ComposeService)
    | [] => []
    | cf :: rest =>
        if pyIn cf r.files then
          match r.composeParse cf with
          | some svcs => svcs
          | none => go rest
        else go rest

/-- Fuel-driven worker for the `(?:\.\d+)*` part of the version regex; the
fuel starts at the list length, which each step strictly consumes. -/
def versionTailGo : Nat → List Char → List Char
  | 0, _ => []
  | fuel+1, cs =>
      match cs with
      | '.' :: rest =>
          let d := rest.takeWhile Char.isDigit
          if d.isEmpty then []
          else '.' :: (d ++ versionTailGo fuel (rest.drop d.length))
      | _ => []

/-- Leading `\d+(?:\.\d+)*` of a tag, as `re.match` finds it: a digit run,
then repeatedly a dot followed by a digit run. -/
def leadingVersionChars (cs : List Char) : List Char :=
  let d1 := cs.takeWhile Char.isDigit
  if d1.isEmpty then []
  else d1 ++ versionTailGo cs.length (cs.drop d1.length)

/-- Embedding of `ArchitectureAnalyzer._extract_image_version`: the leading numeric
version of the image tag, if any. -/
def extractImageVersion (image : String) : Option String :=
  if containsSub image ":" then
    match pySplit image ":" with
    | _ :: tag :: _ =>
        let v := leadingVersionChars tag.data
        if v.isEmpty then none else some ⟨v⟩
    | _ => none
  else none

/-! ## ArchitectureAnalyzer: sub-analyses -/

/-- A component dict as `_detect_components` builds it; keys that a given
parser does not set are `none` (so `component.get(k)` is `Option.getD`). -/
structure Component where
  name : String
  type : String
  source_dir : Option String
  port : Option Int
  command : Option String
  build_command : Option String
  start_command : Option String
  health_check_path : Option String
  has_dockerfile : Option Bool
  image : Option String
  environment : Option (List String)
  output_dir : Option String
deriving DecidableEq

/-- A component with only the universally-set keys populated (no manifest
parser in the source ever sets `output_dir`, so it stays `none`). -/
def Component.base (name type : String) : Component :=
  ⟨name, type, none, none, none, none, none, none, none, none, none, none⟩

/-- Embedding of `ArchitectureAnalyzer._detect_runtime`: first match in the fixed ordered
table (the `dotnet` row is the special suffix probe). -/
def detectRuntime (r : Repo) : String :=
  if pyIn "package.json" r.files then "nodejs"
  else if ["requirements.txt", "Pipfile", "pyproject.toml", "setup.py"].any
      (fun f => pyIn f r.files) then "python"
  else if ["go.mod", "go.sum"].any (fun f => pyIn f r.files) then "go"
  else if ["Gemfile", "Gemfile.lock"].any (fun f => pyIn f r.files) then "ruby"
  else if ["composer.json", "composer.lock"].any (fun f => pyIn f r.files) then "php"
  else if ["pom.xml", "build.gradle", "build.gradle.kts"].any
      (fun f => pyIn f r.files) then "java"
  else if pyIn "Cargo.toml" r.files then "rust"
  else if r.files.any (fun f => pyEndsWith f ".csproj" || pyEndsWith f ".fsproj") then "dotnet"
  else if pyIn "mix.exs" r.files then "elixir"
  else if pyIn "bun.lockb" r.files then "bun"
  else "unknown"

/-- The `EXPOSE` scan of `_detect_default_port`: the first `EXPOSE` line with
a second token decides; a failing `int()` is caught by the surrounding
`except` and yields `none` (fall through to the runtime defaults). -/
def dockerfileExposePort : List String → Option Int
  | [] => none
  | line :: rest =>
      if pyStartsWith (upperStr (pyStrip line)) "EXPOSE" then
        let parts := pySplitWs line
        if parts.length > 1 then
          match pyInt ((pySplit (parts.getD 1 "") "/").headD "") with
          | .ok n => some n
          | .error _ => none
        else dockerfileExposePort rest
      else dockerfileExposePort rest

/-- Embedding of `ArchitectureAnalyzer._detect_default_port`. -/
def detectDefaultPort (r : Repo) : Int :=
  let fromDockerfile : Option Int :=
    if pyIn "Dockerfile" r.files then
      match r.readText "Dockerfile" with
      | some content => dockerfileExposePort (pySplit content "\n")
      | none => none
    else none
  match fromDockerfile with
  | some p => p
  | none =>
      match detectRuntime r with
      | "nodejs" => 3000
      | "python" => 8000
      | "go" => 8080
      | "ruby" => 3000
      | "php" => 8080
      | "java" => 8080
      | _ => 8080

/-- The `comp_type` assignment of `_parse_procfile`: `web` is a service,
`release` a job (checked last, so it overrides), anything else a worker. -/
def procfileType (name : String) : String :=
  if name == "release" then "job"
  else if name == "web" then "service" else "worker"

/-- Embedding of `ArchitectureAnalyzer._parse_procfile`: one component per `name: command`
line, skipping comment lines; `web` is a service (with the default port),
`release` a job, anything else a worker. An unreadable Procfile yields `[]`. -/
def parseProcfile (r : Repo) : List Component :=
  match r.readText "Procfile" with
  | none => []
  | some content =>
      (pySplit (pyStrip content) "\n").filterMap fun line =>
        if containsSub line ":" && !(pyStartsWith (pyStrip line) "#") then
          let (rawName, rawCommand) := pySplit1 line ":"
          let name := pyStrip rawName
          let command := pyStrip rawCommand
          some { Component.base name (procfileType name) with
                  command := some command,
                  source_dir := some "/",
                  port := if procfileType name == "service" then some (detectDefaultPort r)
                    else none }
        else none

/-- The `source_dir` derived from a compose `build` value. -/
def composeSourceDir : BuildVal → String
  | .absent => "/"
  | .str s => s
  | .map ctx => ctx.getD "/"

/-- The `int(...)` applied to the first compose port mapping: this is the one
unguarded conversion in the analyzer, so it returns `Except`. -/
def parseComposePort (portMapping : String) : Except String Int :=
  if containsSub portMapping ":" then
    match pySplit portMapping ":" with
    | _ :: second :: _ => pyInt ((pySplit second "/").headD "")
    | _ => pyInt portMapping
  else pyInt ((pySplit portMapping "/").headD "")

/-- Embedding of `ArchitectureAnalyzer._parse_docker_compose_components`: skip
infrastructure-named services and database images; a published port makes a
service (its first mapping parsed by the unguarded `int()`), no port makes a
worker. -/
def parseDockerComposeComponents : List (String × ComposeService) → Except String (List Component)
  | [] => .ok []
  | (name, cfg) :: rest =>
      if isInfrastructureService name then parseDockerComposeComponents rest
      else if isDatabaseImage cfg.image then parseDockerComposeComponents rest
      else do
        let port ← if cfg.ports.isEmpty then pure (none : Option Int)
          else do
            let p ← parseComposePort (cfg.ports.headD "")
            pure (some p)
        let tail ← parseDockerComposeComponents rest
        .ok ({ Component.base name (if cfg.ports.isEmpty then "worker" else "service") with
                source_dir := some (composeSourceDir cfg.build),
                port := port,
                has_dockerfile := some cfg.build.truthy,
                image := if cfg.build.truthy then none else some cfg.image,
                environment := some cfg.environment,
                command := cfg.command } :: tail)

/-- The type map applied to a render service entry. -/
def renderTypeMap (svcType : String) : String :=
  if svcType == "web" then "service"
  else if svcType == "worker" then "worker"
  else if svcType == "cron" then "job"
  else if svcType == "static" then "static_site"
  else "service"

/-- Embedding of `ArchitectureAnalyzer._parse_render_yaml`: the first present render file
is parsed; its `port` key is passed through as-is (it may be absent). A parse
exception abandons the whole list. -/
def parseRenderYaml (r : Repo) : List Component :=
  go ["render.yaml", "render.yml"]
where
  go : List String → List Component
    | [] => []
    | rf :: rest =>
        if pyIn rf r.files then
          match r.renderParse rf with
          | none => []
          | some svcs =>
              svcs.map fun s =>
                { Component.base (s.name.getD "web") (renderTypeMap (s.type.getD "web")) with
                    source_dir := some (s.rootDir.getD "/"),
                    port := s.port,
                    build_command := s.buildCommand,
                    start_command := s.startCommand,
                    health_check_path := s.healthCheckPath }
        else go rest

/-- The `internal_port\s*=\s*(\d+)` search of `_parse_fly_toml`, tried at
every position of the line (as `re.search` does). -/
def flyPortAt : List Char → Option Int
  | [] => none
  | cs@(_ :: rest) =>
      (if "internal_port".data.isPrefixOf cs then
        let afterKey := cs.drop "internal_port".data.length
        let afterWs := afterKey.dropWhile Char.isWhitespace
        match afterWs with
        | '=' :: tail =>
            let ds := (tail.dropWhile Char.isWhitespace).takeWhile Char.isDigit
            if ds.isEmpty then none else some (digitsVal ds : Int)
        | _ => none
      else none) <|> flyPortAt rest

/-- Embedding of `ArchitectureAnalyzer._parse_fly_toml`: a single service whose name comes
from the `app = ` line (falling back to `web`) and whose port comes from the
last matching `internal_port` line (falling back to 8080). -/
def parseFlyToml (r : Repo) : List Component :=
  match r.readText "fly.toml" with
  | none => []
  | some content =>
      let st := (pySplit content "\n").foldl
        (fun (st : Option String × Int) rawLine =>
          let line := pyStrip rawLine
          if pyStartsWith line "app = " then
            (some (pyStripChars [Char.ofNat 34, Char.ofNat 39] (pyStrip ((pySplit line "=").getD 1 ""))), st.2)
          else if containsSub line "internal_port" then
            match flyPortAt line.data with
            | some p => (st.1, p)
            | none => (st.1, st.2)
          else st)
        (none, 8080)
      let appName := match st.1 with
        | some n => if n == "" then "web" else n
        | none => "web"
      [{ Component.base appName "service" with
          source_dir := some "/",
          port := some st.2,
          has_dockerfile := some (pyIn "Dockerfile" r.files) }]

/-- The synthesized default component of `_detect_components`. -/
def defaultWebComponent (r : Repo) : Component :=
  { Component.base "web" "service" with
      source_dir := some "/",
      port := some (detectDefaultPort r),
      has_dockerfile := some (pyIn "Dockerfile" r.files) }

/-- The manifest-priority chain of `_detect_components` (before the
empty-result fallback). Only the compose branch can raise. -/
def detectComponentsCore (r : Repo) : Except String (List Component) :=
  if pyIn "Procfile" r.files then .ok (parseProcfile r)
  else if ["docker-compose.yml", "docker-compose.yaml"].any (fun f => pyIn f r.files) then
    parseDockerComposeComponents (parseDockerComposeServices r)
  else if ["render.yaml", "render.yml"].any (fun f => pyIn f r.files) then
    .ok (parseRenderYaml r)
  else if pyIn "fly.toml" r.files then .ok (parseFlyToml r)
  else .ok []

/-- Embedding of `ArchitectureAnalyzer._detect_components`. -/
def detectComponents (r : Repo) : Except String (List Component) := do
  let comps ← detectComponentsCore r
  if comps.isEmpty then .ok [defaultWebComponent r] else .ok comps

/-- The conventional frontend directory names of `_detect_architecture_type`. -/
def frontendDirsArch : List String :=
  ["frontend", "client", "web", "ui", "app", "packages/frontend", "apps/web", "packages/web"]

/-- The conventional backend directory names of `_detect_architecture_type`. -/
def backendDirsArch : List String :=
  ["backend", "server", "api", "services", "packages/backend", "apps/api", "packages/api"]

/-- The static-site marker files of `_detect_architecture_type`. -/
def staticIndicators : List String :=
  ["gatsby-config.js", "next.config.js", "nuxt.config.js", "astro.config.mjs",
   "vite.config.js", "vite.config.ts", "config.toml", "_config.yml", "hugo.toml"]

/-- Whether some snapshot file lies under one of the named directories. -/
def hasDirPrefix (files : List String) (dirs : List String) : Bool :=
  dirs.any (fun d => files.any (fun f => pyStartsWith f (d ++ "/")))

/-- Embedding of `ArchitectureAnalyzer._detect_architecture_type`: the ordered decision
chain (compose with more than two non-infrastructure services, frontend plus
backend, static markers with the Next.js override, frontend alone, monolith). -/
def detectArchitectureType (r : Repo) : String :=
  let composeHit := ["docker-compose.yml", "docker-compose.yaml"].any (fun f => pyIn f r.files)
  let manyAppServices :=
    ((parseDockerComposeServices r).filter
      (fun p => !isInfrastructureService p.1)).length > 2
  if composeHit && manyAppServices then "microservices"
  else
    let hasFrontend := hasDirPrefix r.files frontendDirsArch
    let hasBackend := hasDirPrefix r.files backendDirsArch
    if hasFrontend && hasBackend then "full-stack"
    else if staticIndicators.any (fun f => pyIn f r.files) then
      if pyIn "next.config.js" r.files || pyIn "next.config.mjs" r.files then "full-stack"
      else "static-site"
    else if hasFrontend && !hasBackend then "static-site"
    else "monolith"

/-- Embedding of `ArchitectureAnalyzer._detect_build_method`. -/
def detectBuildMethod (r : Repo) : String :=
  if pyIn "Dockerfile" r.files then "dockerfile"
  else if composeNames4.any (fun f => pyIn f r.files) then "docker-compose"
  else
    let runtime := detectRuntime r
    if runtime == "unknown" then "buildpack" else "buildpack-" ++ runtime

/-- One dependency entry; keys a given branch does not set are `none`, and
the `inferred` marker (a key only the env-file pass sets) is a `Bool`. -/
structure DepEntry where
  type : String
  source : String
  version : Option String
  service_name : Option String
  note : Option String
  heroku_addon : Option String
  inferred : Bool
deriving DecidableEq

/-- The four dependency families. -/
structure Deps where
  databases : List DepEntry
  caches : List DepEntry
  queues : List DepEntry
  storage : List DepEntry
deriving DecidableEq

/-- A pass-1 compose entry (no note). -/
def composeDep (type image : String) (name : String) (version : Option String) : DepEntry :=
  ⟨type, "docker: " ++ image, version, some name, none, none, false⟩

/-- A pass-1 compose entry with an advisory note. -/
def composeDepNote (type image name note : String) (version : Option String) : DepEntry :=
  ⟨type, "docker: " ++ image, version, some name, some note, none, false⟩

/-- The compose pass of `_detect_dependencies`: one `elif` chain over the
lower-cased image of every service (no infrastructure filtering here). -/
def composeDepsPass (svcs : List (String × ComposeService)) (d : Deps) : Deps :=
  svcs.foldl
    (fun d p =>
      let name := p.1
      let image := lowerStr p.2.image
      if containsSub image "postgres" || containsSub image "postgresql" then
        { d with databases := d.databases ++
            [composeDep "postgres" image name (extractImageVersion image)] }
      else if containsSub image "mysql" || containsSub image "mariadb" then
        { d with databases := d.databases ++
            [composeDep "mysql" image name (extractImageVersion image)] }
      else if containsSub image "mongo" then
        { d with databases := d.databases ++
            [composeDep "mongodb" image name (extractImageVersion image)] }
      else if containsSub image "redis" then
        { d with caches := d.caches ++
            [composeDepNote "redis" image name "Redis EOL on DO - will map to Valkey"
              (extractImageVersion image)] }
      else if containsSub image "memcached" then
        { d with caches := d.caches ++
            [composeDepNote "memcached" image name "Use Valkey instead" none] }
      else if containsSub image "rabbitmq" then
        { d with queues := d.queues ++
            [composeDepNote "rabbitmq" image name "No direct equivalent - consider external" none] }
      else if containsSub image "kafka" then
        { d with queues := d.queues ++ [composeDep "kafka" image name none] }
      else if containsSub image "minio" then
        { d with storage := d.storage ++
            [composeDepNote "s3" image name "Map to Spaces" none] }
      else d)
    d

/-- The `app.json` add-on pass of `_detect_dependencies`. -/
def appJsonDepsPass (r : Repo) (d : Deps) : Deps :=
  if pyIn "app.json" r.files then
    match r.appJson with
    | none => d
    | some addons =>
        addons.foldl
          (fun d addon =>
            let addonName := addon.name
            if containsSub (lowerStr addonName) "postgresql"
                || containsSub (lowerStr addonName) "postgres" then
              { d with databases := d.databases ++
                  [⟨"postgres", "heroku: " ++ addonName, none, none, none, some addonName, false⟩] }
            else if containsSub (lowerStr addonName) "redis" then
              { d with caches := d.caches ++
                  [⟨"redis", "heroku: " ++ addonName, none, none,
                    some "Redis EOL on DO - will map to Valkey", some addonName, false⟩] }
            else d)
          d
  else d

/-- Entries of the given exact type. -/
def entriesOfType (type : String) (l : List DepEntry) : List DepEntry :=
  l.filter (fun e => e.type == type)

/-- An inferred (pass-2) entry. -/
def inferredDep (type envFile : String) (note : Option String) : DepEntry :=
  ⟨type, "env file: " ++ envFile, none, none, note, none, true⟩

/-- The PostgreSQL check `_enhance_deps_from_code` runs against one env
file (content already lower-cased by the source). -/
def enhanceStepPg (envFile content : String) (d : Deps) : Deps :=
  if containsSub content "postgres" && (entriesOfType "postgres" d.databases).isEmpty then
    { d with databases := d.databases ++ [inferredDep "postgres" envFile none] } else d

/-- The MySQL check of `_enhance_deps_from_code`. -/
def enhanceStepMysql (envFile content : String) (d : Deps) : Deps :=
  if containsSub content "mysql" && (entriesOfType "mysql" d.databases).isEmpty then
    { d with databases := d.databases ++ [inferredDep "mysql" envFile none] } else d

/-- The Redis check of `_enhance_deps_from_code`. -/
def enhanceStepRedis (envFile content : String) (d : Deps) : Deps :=
  if containsSub content "redis" && (entriesOfType "redis" d.caches).isEmpty then
    { d with caches := d.caches ++
        [inferredDep "redis" envFile (some "Redis EOL on DO - will map to Valkey")] } else d

/-- The S3/Spaces check of `_enhance_deps_from_code` (note the guard is
family emptiness, not exact-type emptiness, matching the source). -/
def enhanceStepS3 (envFile content : String) (d : Deps) : Deps :=
  if (containsSub content "s3" || containsSub content "aws_access"
        || containsSub content "spaces") && d.storage.isEmpty then
    { d with storage := d.storage ++ [inferredDep "s3" envFile none] } else d

/-- The checks `_enhance_deps_from_code` runs against one readable env file,
in source order. -/
def enhanceFromFile (envFile content : String) (d : Deps) : Deps :=
  enhanceStepS3 envFile content
    (enhanceStepRedis envFile content
      (enhanceStepMysql envFile content (enhanceStepPg envFile content d)))

/-- Embedding of `ArchitectureAnalyzer._enhance_deps_from_code`: every snapshot file whose
lower-cased name contains `.env`, in snapshot order; an unreadable file is
skipped whole. -/
def enhanceDepsFromCode (r : Repo) (d : Deps) : Deps :=
  (r.files.filter (fun f => containsSub (lowerStr f) ".env")).foldl
    (fun d f =>
      match r.readText f with
      | none => d
      | some content => enhanceFromFile f (lowerStr content) d)
    d

/-- Pass 1 of `ArchitectureAnalyzer._detect_dependencies`: the structured
manifests (compose service images, then `app.json` add-ons). -/
def depsPass1 (r : Repo) : Deps :=
  appJsonDepsPass r (composeDepsPass (parseDockerComposeServices r) ⟨[], [], [], []⟩)

/-- Embedding of `ArchitectureAnalyzer._detect_dependencies`: the structured pass, then
the env-file pass. -/
def detectDependencies (r : Repo) : Deps :=
  enhanceDepsFromCode r (depsPass1 r)

/-- Embedding of `ArchitectureAnalyzer._detect_env_files`. -/
def detectEnvFiles (r : Repo) : List String :=
  [".env.example", ".env.sample", ".env.template", "env.example"].filter
    (fun p => pyIn p r.files)

/-- Embedding of `ArchitectureAnalyzer._detect_tests` (substring probes over every path). -/
def detectTests (r : Repo) : Bool :=
  r.files.any (fun f =>
    ["test/", "tests/", "spec/", "__tests__/",
     "test.py", "tests.py", "test.js", "test.ts",
     "pytest.ini", "jest.config.js", "jest.config.ts"].any (fun t => containsSub f t))

/-- Embedding of `ArchitectureAnalyzer._detect_monorepo_structure`. -/
def detectMonorepoStructure (r : Repo) : Option (Option String × Option String) :=
  let fd := (["frontend", "client", "web", "ui", "packages/frontend", "apps/web"].filter
    (fun d => r.files.any (fun f => pyStartsWith f (d ++ "/")))).head?
  let bd := (["backend", "server", "api", "packages/backend", "apps/api"].filter
    (fun d => r.files.any (fun f => pyStartsWith f (d ++ "/")))).head?
  match fd, bd with
  | none, none => none
  | f, b => some (f.map (fun d => "/" ++ d), b.map (fun d => "/" ++ d))

/-- The dict returned by `ArchitectureAnalyzer.analyze()`. `runtime_version`
is the only key not embedded: no verified property reads it, and its probes
are regex searches over version files that nothing else consumes. -/
structure ArchReport where
  architecture_type : String
  runtime : String
  build_method : String
  components : List Component
  dependencies : Deps
  default_port : Int
  environment_files : List String
  has_dockerfile : Bool
  has_docker_compose : Bool
  has_tests : Bool
  monorepo_structure : Option (Option String × Option String)
deriving DecidableEq

/-- Embedding of `ArchitectureAnalyzer.analyze()`: every sub-analysis is total except the
component pass, whose unguarded compose-port `int()` propagates out. -/
def analyze (r : Repo) : Except String ArchReport := do
  let comps ← detectComponents r
  .ok
    { architecture_type := detectArchitectureType r,
      runtime := detectRuntime r,
      build_method := detectBuildMethod r,
      components := comps,
      dependencies := detectDependencies r,
      default_port := detectDefaultPort r,
      environment_files := detectEnvFiles r,
      has_dockerfile := pyIn "Dockerfile" r.files,
      has_docker_compose :=
        ["docker-compose.yml", "docker-compose.yaml"].any (fun f => pyIn f r.files),
      has_tests := detectTests r,
      monorepo_structure := detectMonorepoStructure r }

/-! ## AppSpecGenerator

The repository has no `shared/` config directory, so `load_shared_config`
returns `{}` and the hardcoded fallback tables are in force; they are
embedded directly. -/

/-- One tier row of `INSTANCE_SIZES`. -/
structure SizeTable where
  service : String
  worker : String
  job : String
deriving DecidableEq

/-- The `INSTANCE_SIZES` fallback table. -/
def INSTANCE_SIZES : List (String × SizeTable) :=
  [("test", ⟨"apps-s-1vcpu-1gb", "apps-s-1vcpu-0.5gb", "apps-s-1vcpu-0.5gb"⟩),
   ("production", ⟨"apps-d-1vcpu-2gb", "apps-d-1vcpu-1gb", "apps-s-1vcpu-1gb"⟩)]

/-- Embedding of `INSTANCE_SIZES[self.environment if self.environment in INSTANCE_SIZES
else 'test']`. -/
def sizesFor (environment : String) : SizeTable :=
  match INSTANCE_SIZES.lookup environment with
  | some t => t
  | none => ⟨"apps-s-1vcpu-1gb", "apps-s-1vcpu-0.5gb", "apps-s-1vcpu-0.5gb"⟩

/-- One env-binding dict (`value` or the `SECRET` `type` marker may be
absent). -/
structure EnvVar where
  key : String
  scope : String
  value : Option String
  type : Option String
deriving DecidableEq

/-- The autoscaling block added to production services. -/
structure Autoscaling where
  min_instance_count : Int
  max_instance_count : Int
  metric_type : String
  metric_percent : Int
deriving DecidableEq

/-- The fixed health-check block added to services. -/
structure HealthCheck where
  http_path : String
  initial_delay_seconds : Int
  period_seconds : Int
deriving DecidableEq

/-- One component spec as `_generate_component_spec` builds it. -/
structure ComponentSpec where
  name : String
  git : Option (String × String)
  source_dir : Option String
  dockerfile_path : Option String
  environment_slug : Option String
  http_port : Option Int
  instance_size_slug : Option String
  instance_count : Option Int
  health_check : Option HealthCheck
  autoscaling : Option Autoscaling
  kind : Option String
  run_command : Option String
  build_command : Option String
  output_dir : Option String
  envs : List EnvVar
deriving DecidableEq

/-- One database/cache resource spec. -/
structure DatabaseSpec where
  name : String
  engine : String
  version : Option String
  production : Bool
  cluster_name : Option String
deriving DecidableEq

/-- The overall spec dict (`spec:` body); a list key left `[]` corresponds to
the key being omitted from the dict. -/
structure AppSpec where
  name : String
  region : String
  services : List ComponentSpec
  workers : List ComponentSpec
  jobs : List ComponentSpec
  static_sites : List ComponentSpec
  databases : List DatabaseSpec
deriving DecidableEq

/-- One `unmapped_items` entry. -/
structure UnmappedItem where
  type : String
  name : String
  source : String
  reason : String
  options : List String
deriving DecidableEq

/-- The state of a constructed `AppSpecGenerator`: inputs, the two analysis
results computed in `__init__`, and the two accumulator side channels
(empty right after construction). -/
structure AppSpecGenerator where
  app_name : String
  environment : String
  platform_info : DetectionResult
  architecture : ArchReport
  unmapped_items : List UnmappedItem
  warnings : List String
deriving DecidableEq

/-- Embedding of `AppSpecGenerator.__init__`: runs the analyses (so the compose-port
exception can escape construction) and starts both accumulators empty. The
detector snapshot is taken as a parameter because no generator-level property
proved here depends on it. -/
def initGenerator (pinfo : DetectionResult) (r : Repo) (appName environment : String) :
    Except String AppSpecGenerator := do
  let arch ← analyze r
  .ok ⟨appName, environment, pinfo, arch, [], []⟩

/-- Embedding of `AppSpecGenerator._generate_env_vars` (the component argument is unused
by the source, so every component receives the same list). -/
def generateEnvVars (arch : ArchReport) : List EnvVar :=
  let dbBindings := arch.dependencies.databases.filterMap fun db =>
    if db.type == "postgres" then
      some ⟨"DATABASE_URL", "RUN_TIME", some "$\x7bdb.DATABASE_URL\x7d", none⟩
    else if db.type == "mysql" then
      some ⟨"MYSQL_URL", "RUN_TIME", some "$\x7bdb.DATABASE_URL\x7d", none⟩
    else none
  let cacheBindings := arch.dependencies.caches.flatMap fun cache =>
    if cache.type == "redis" || cache.type == "valkey" then
      [⟨"VALKEY_URL", "RUN_TIME", some "$\x7bcache.DATABASE_URL\x7d", none⟩,
       ⟨"REDIS_URL", "RUN_TIME", some "$\x7bcache.DATABASE_URL\x7d", none⟩]
    else []
  let secrets := ["SECRET_KEY", "API_KEY", "JWT_SECRET"].map fun s =>
    (⟨s, "RUN_TIME", none, some "SECRET"⟩ : EnvVar)
  dbBindings ++ cacheBindings ++ secrets ++
    [⟨"PORT", "RUN_TIME", some (toString arch.default_port), none⟩]

/-- The buildpack slug table of `_generate_component_spec`. -/
def buildpackMap : List (String × String) :=
  [("nodejs", "node-js"), ("python", "python"), ("go", "go"),
   ("ruby", "ruby"), ("php", "php"), ("bun", "bun")]

/-- Embedding of `AppSpecGenerator._generate_component_spec`. -/
def generateComponentSpec (g : AppSpecGenerator) (component : Component)
    (repoUrl : Option String) (branch : String) : ComponentSpec :=
  let sizes := sizesFor g.environment
  let sourceDir := component.source_dir.getD "/"
  let hasDockerfile := component.has_dockerfile.getD g.architecture.has_dockerfile
  let base : ComponentSpec :=
    { name := component.name,
      git := repoUrl.map (fun u => (u, branch)),
      source_dir := if sourceDir != "" && sourceDir != "/" then some sourceDir else none,
      dockerfile_path := if hasDockerfile then some "Dockerfile" else none,
      environment_slug :=
        if hasDockerfile then none else buildpackMap.lookup g.architecture.runtime,
      http_port := none, instance_size_slug := none, instance_count := none,
      health_check := none, autoscaling := none, kind := none,
      run_command := none, build_command := none, output_dir := none,
      envs := generateEnvVars g.architecture }
  let truthyCommand := match component.command with
    | some c => if c == "" then none else some c
    | none => none
  if component.type == "service" then
    { base with
        http_port := some (match component.port with
          | some p => if p == 0 then g.architecture.default_port else p
          | none => g.architecture.default_port),
        instance_size_slug := some sizes.service,
        instance_count := some (if g.environment == "production" then 2 else 1),
        health_check := some ⟨"/health", 10, 10⟩,
        autoscaling := if g.environment == "production" then
          some ⟨2, 5, "CPU", 80⟩ else none }
  else if component.type == "worker" then
    { base with
        instance_size_slug := some sizes.worker,
        instance_count := some (if g.environment == "production" then 2 else 1),
        run_command := truthyCommand }
  else if component.type == "job" then
    { base with
        instance_size_slug := some sizes.job,
        kind := some "PRE_DEPLOY",
        run_command := truthyCommand }
  else if component.type == "static_site" then
    { base with
        build_command := match component.build_command with
          | some c => if c == "" then
              (if g.architecture.runtime == "nodejs" then some "npm run build" else none)
            else some c
          | none =>
              if g.architecture.runtime == "nodejs" then some "npm run build" else none,
        output_dir := some (component.output_dir.getD "dist") }
  else base

/-- Embedding of `AppSpecGenerator._generate_database_specs`: returns the resource list
and the warnings/unmapped items it appends to the generator accumulators,
in source order (PG, MySQL, MongoDB, Valkey, then unmappable queues). -/
def generateDatabaseSpecs (g : AppSpecGenerator) :
    List DatabaseSpec × List String × List UnmappedItem :=
  let deps := g.architecture.dependencies
  let appName := g.app_name
  let pgDeps := deps.databases.filter (fun d => d.type == "postgres")
  let pgPart : List DatabaseSpec × List String :=
    match pgDeps with
    | [] => ([], [])
    | d0 :: _ =>
        let version := match d0.version with
          | some v =>
              if v == "" then none
              else if pyIn ((pySplit v ".").headD "") ["14", "15", "16"] then
                some ((pySplit v ".").headD "")
              else none
          | none => none
        if g.environment == "production" then
          ([⟨"db", "PG", version, true, some (appName ++ "-db")⟩],
           ["Production database: Create cluster first with:\n  doctl databases create "
              ++ appName ++ "-db --engine pg --region nyc --size db-s-1vcpu-1gb"])
        else ([⟨"db", "PG", version, false, none⟩], [])
  let mysqlPart : List DatabaseSpec × List String :=
    if (deps.databases.filter (fun d => d.type == "mysql")).isEmpty then ([], [])
    else
      ([⟨"mysqldb", "MYSQL", none, true, some (appName ++ "-mysql")⟩],
       ["MySQL requires managed database (no dev DB option). Create cluster first with:\n  doctl databases create "
          ++ appName ++ "-mysql --engine mysql --region nyc --size db-s-1vcpu-1gb"])
  let mongoPart : List DatabaseSpec × List String :=
    if (deps.databases.filter (fun d => d.type == "mongodb")).isEmpty then ([], [])
    else
      ([⟨"mongodb", "MONGODB", none, true, some (appName ++ "-mongo")⟩],
       ["MongoDB requires managed database. Create cluster first with:\n  doctl databases create "
          ++ appName ++ "-mongo --engine mongodb --region nyc --size db-s-1vcpu-1gb"])
  let cacheDeps := deps.caches.filter (fun d => d.type == "redis" || d.type == "valkey")
  let cachePart : List DatabaseSpec × List String :=
    match cacheDeps with
    | [] => ([], [])
    | _ =>
        let specAndWarn : List DatabaseSpec × List String :=
          if g.environment == "production" then
            ([⟨"cache", "VALKEY", none, true, some (appName ++ "-cache")⟩],
             ["Cache cluster: Create with:\n  doctl databases create "
                ++ appName ++ "-cache --engine valkey --region nyc --size db-s-1vcpu-1gb"])
          else ([⟨"cache", "VALKEY", none, false, none⟩], [])
        if cacheDeps.any (fun d => d.type == "redis") then
          (specAndWarn.1, specAndWarn.2 ++
            ["Redis → Valkey: Redis is EOL on DigitalOcean. Using Valkey (Redis-compatible). Update any REDIS_URL references to VALKEY_URL in your code."])
        else specAndWarn
  let unmapped := deps.queues.filterMap fun queue =>
    if queue.type == "rabbitmq" then
      some ⟨"queue", "RabbitMQ", queue.source, "No direct equivalent on App Platform",
        ["Use external RabbitMQ service (CloudAMQP, etc.)",
         "Consider using Kafka (supported on DO)",
         "Use Redis/Valkey for simple queue patterns"]⟩
    else none
  (pgPart.1 ++ mysqlPart.1 ++ mongoPart.1 ++ cachePart.1,
   pgPart.2 ++ mysqlPart.2 ++ mongoPart.2 ++ cachePart.2,
   unmapped)

/-- Embedding of `AppSpecGenerator.generate()`: the spec plus the generator with the
accumulator side channels extended (in Python the same lists are mutated). -/
def generate (g : AppSpecGenerator) (repoUrl : Option String) (branch : String) :
    AppSpec × AppSpecGenerator :=
  let comps := g.architecture.components
  let services := (comps.filter (fun c => c.type == "service")).map
    (fun c => generateComponentSpec g c repoUrl branch)
  let workers := (comps.filter (fun c => c.type == "worker")).map
    (fun c => generateComponentSpec g c repoUrl branch)
  let jobs := (comps.filter (fun c => c.type == "job")).map
    (fun c => generateComponentSpec g c repoUrl branch)
  let staticSites := (comps.filter (fun c => c.type == "static_site")).map
    (fun c => generateComponentSpec g c repoUrl branch)
  let dbRes := generateDatabaseSpecs g
  (⟨(if g.environment == "" then g.app_name else g.app_name ++ "-" ++ g.environment),
    "nyc", services, workers, jobs, staticSites, dbRes.1⟩,
   { g with warnings := g.warnings ++ dbRes.2.1,
            unmapped_items := g.unmapped_items ++ dbRes.2.2 })

/-- Embedding of `AppSpecGenerator.generate_deploy_template()`: run `generate`, then
delete `instance_count`/`autoscaling` from every service and force
`production = False` (dropping `cluster_name`) on `PG`/`VALKEY` entries
only. -/
def generateDeployTemplate (g : AppSpecGenerator) (repoUrl : String) :
    AppSpec × AppSpecGenerator :=
  let res := generate g (some repoUrl) "main"
  (⟨res.1.name, res.1.region,
    res.1.services.map (fun s => { s with instance_count := none, autoscaling := none }),
    res.1.workers, res.1.jobs, res.1.static_sites,
    res.1.databases.map (fun db =>
      if db.engine == "PG" || db.engine == "VALKEY" then
        { db with production := false, cluster_name := none }
      else db)⟩,
   res.2)

/-- The dict returned by `AppSpecGenerator.get_migration_report()`
(`generated_at`, a wall-clock timestamp, is not modelled). -/
structure MigrationReport where
  source_platform : String
  source_description : String
  config_files : List String
  architecture_type : String
  architecture_runtime : String
  architecture_build_method : String
  components_mapped : Nat
  components : List (String × String × String)
  dependencies : Deps
  unmapped_items : List UnmappedItem
  warnings : List String
  requires_user_decision : Bool
deriving DecidableEq

/-- Embedding of `AppSpecGenerator.get_migration_report()`: a projection of the current
generator state; `requires_user_decision` is `len(unmapped_items) > 0`. -/
def getMigrationReport (g : AppSpecGenerator) : MigrationReport :=
  { source_platform := g.platform_info.primary_platform,
    source_description := g.platform_info.primary_description,
    config_files := g.platform_info.config_files,
    architecture_type := g.architecture.architecture_type,
    architecture_runtime := g.architecture.runtime,
    architecture_build_method := g.architecture.build_method,
    components_mapped := g.architecture.components.length,
    components := g.architecture.components.map
      (fun c => (c.name, c.type, "App Platform " ++ c.type)),
    dependencies := g.architecture.dependencies,
    unmapped_items := g.unmapped_items,
    warnings := g.warnings,
    requires_user_decision := g.unmapped_items.length > 0 }

/-- The decision-related slice of `generate_checklist()`: the function
constructs fresh test and production generators, never calls `generate()` on
them, and then renders `len(test_generator.unmapped_items)` in the summary
table and emits the decision section only if that list is non-empty. The
returned pair is (the rendered count line, whether the decision section is
emitted); the surrounding prose of the checklist is presentation only. -/
def checklistDecisionSlice (pinfo : DetectionResult) (r : Repo) (appName : String) :
    Except String (String × Bool) := do
  let testGenerator ← initGenerator pinfo r appName "test"
  let _prodGenerator ← initGenerator pinfo r appName "production"
  .ok ("| Requires Decision | " ++ toString testGenerator.unmapped_items.length ++ " |",
       !testGenerator.unmapped_items.isEmpty)

/-! ## Predicates used by the claim statements -/

/-- Every file name any sub-analysis recognizes as a manifest or marker:
the component manifests, the runtime-indicator files, the static-site
markers, the structured dependency manifests, and the Dockerfile. -/
def recognizedManifestFiles : List String :=
  ["Procfile", "docker-compose.yml", "docker-compose.yaml", "compose.yml", "compose.yaml",
   "render.yaml", "render.yml", "fly.toml", "Dockerfile", "app.json",
   "package.json", "requirements.txt", "Pipfile", "pyproject.toml", "setup.py",
   "go.mod", "go.sum", "Gemfile", "Gemfile.lock", "composer.json", "composer.lock",
   "pom.xml", "build.gradle", "build.gradle.kts", "Cargo.toml", "mix.exs", "bun.lockb",
   "gatsby-config.js", "next.config.js", "nuxt.config.js", "astro.config.mjs",
   "vite.config.js", "vite.config.ts", "config.toml", "_config.yml", "hugo.toml"]

/-- No recognizable manifest in the snapshot (including the `.csproj` /
`.fsproj` suffix probe of the runtime table). -/
def noRecognizableManifest (files : List String) : Prop :=
  (∀ m ∈ recognizedManifestFiles, pyIn m files = false) ∧
  files.any (fun f => pyEndsWith f ".csproj" || pyEndsWith f ".fsproj") = false

/-- No file under one of the conventional frontend directory names that
`_detect_architecture_type` probes. (Backend directory names need no
exclusion: without a frontend hit, the backend probe feeds only the
short-circuited frontend-and-backend conjunction, so it cannot divert the
chain from the `monolith` default.) -/
def noConventionalFrontendDirs (files : List String) : Prop :=
  hasDirPrefix files frontendDirsArch = false

/-- The component pass settles on the render manifest: no Procfile, no
compose manifest, and a render file present. -/
def usesRenderManifest (r : Repo) : Bool :=
  !pyIn "Procfile" r.files
    && !(["docker-compose.yml", "docker-compose.yaml"].any (fun f => pyIn f r.files))
    && (["render.yaml", "render.yml"].any (fun f => pyIn f r.files))

/-- Every first port mapping of every compose service parses as an integer
(the guard under which the one unguarded `int()` of the analyzer cannot
raise). -/
def composePortsParseable (r : Repo) : Prop :=
  ∀ p ∈ parseDockerComposeServices r, p.2.ports ≠ [] →
    (parseComposePort (p.2.ports.headD "")).isOk = true

/-- All component specs of a generated spec, across the four kinds. -/
def allComponentSpecs (s : AppSpec) : List ComponentSpec :=
  s.services ++ s.workers ++ s.jobs ++ s.static_sites

/-! ## Concrete inputs used by witnesses and counterexamples -/

/-- The `unknown` sentinel detection result. -/
def unknownPinfo : DetectionResult :=
  ⟨"unknown", "Unknown platform", [], [], false, false⟩

/-- A repository with no files at all (every oracle raises). -/
def exEmptyRepo : Repo :=
  { files := [], readText := fun _ => none, composeParse := fun _ => none,
    renderParse := fun _ => none, appJson := none }

/-- The report `analyze` produces for `exEmptyRepo`. -/
def exEmptyReport : ArchReport :=
  { architecture_type := "monolith", runtime := "unknown", build_method := "buildpack",
    components := [⟨"web", "service", some "/", some 8080, none, none, none, none,
      some false, none, none, none⟩],
    dependencies := ⟨[], [], [], []⟩, default_port := 8080, environment_files := [],
    has_dockerfile := false, has_docker_compose := false, has_tests := false,
    monorepo_structure := none }

/-- A repository whose only file lives under a conventional backend
directory (no manifest of any kind, no frontend directory). -/
def exBackendOnlyRepo : Repo :=
  { files := ["server/readme.md"], readText := fun _ => none,
    composeParse := fun _ => none, renderParse := fun _ => none, appJson := none }

/-- A repository whose only file lives under `frontend/` (no manifest of any
kind). -/
def exFrontendRepo : Repo :=
  { files := ["frontend/index.html"], readText := fun _ => none,
    composeParse := fun _ => none, renderParse := fun _ => none, appJson := none }

/-- A compose file declaring one service whose port mapping is not numeric
(for example the YAML long port syntax stringifies to such a value). -/
def exBadPortRepo : Repo :=
  { files := ["docker-compose.yml"], readText := fun _ => none,
    composeParse := fun cf =>
      if cf == "docker-compose.yml" then some [("web", ⟨"", ["abc"], .absent, [], none⟩)]
      else none,
    renderParse := fun _ => none, appJson := none }

/-- A render manifest declaring a web service with no `port` key. -/
def exRenderRepo : Repo :=
  { files := ["render.yaml"], readText := fun _ => none, composeParse := fun _ => none,
    renderParse := fun rf =>
      if rf == "render.yaml" then
        some [{ type := some "web", name := some "app", rootDir := none, port := none,
                buildCommand := none, startCommand := none, healthCheckPath := none }]
      else none,
    appJson := none }

/-- A compose file declaring a MySQL image. -/
def exMySQLRepo : Repo :=
  { files := ["docker-compose.yml"], readText := fun _ => none,
    composeParse := fun cf =>
      if cf == "docker-compose.yml" then some [("db", ⟨"mysql:8", [], .absent, [], none⟩)]
      else none,
    renderParse := fun _ => none, appJson := none }

/-- A compose file declaring two PostgreSQL images, plus an env template
mentioning postgres. -/
def exDoublePgRepo : Repo :=
  { files := ["docker-compose.yml", ".env.example"],
    readText := fun f =>
      if f == ".env.example" then some "DATABASE_URL=postgres://localhost/app" else none,
    composeParse := fun cf =>
      if cf == "docker-compose.yml" then
        some [("db1", ⟨"postgres:15", [], .absent, [], none⟩),
              ("db2", ⟨"postgres:14", [], .absent, [], none⟩)]
      else none,
    renderParse := fun _ => none, appJson := none }

/-- A compose file declaring one PostgreSQL image, plus an env template
mentioning postgres (the dedup scenario of the spec). -/
def exDedupRepo : Repo :=
  { files := ["docker-compose.yml", ".env.example"],
    readText := fun f =>
      if f == ".env.example" then some "DATABASE_URL=postgres://localhost/app" else none,
    composeParse := fun cf =>
      if cf == "docker-compose.yml" then
        some [("db", ⟨"postgres:15", [], .absent, [], none⟩)]
      else none,
    renderParse := fun _ => none, appJson := none }

/-- A compose file declaring a RabbitMQ image (an unmappable queue). -/
def exRabbitRepo : Repo :=
  { files := ["docker-compose.yml"], readText := fun _ => none,
    composeParse := fun cf =>
      if cf == "docker-compose.yml" then
        some [("queue", ⟨"rabbitmq:3", [], .absent, [], none⟩)]
      else none,
    renderParse := fun _ => none, appJson := none }

/-- The report `analyze` produces for `exRabbitRepo`. -/
def exRabbitReport : ArchReport :=
  { architecture_type := "monolith", runtime := "unknown", build_method := "docker-compose",
    components := [⟨"web", "service", some "/", some 8080, none, none, none, none,
      some false, none, none, none⟩],
    dependencies := ⟨[], [], [⟨"rabbitmq", "docker: rabbitmq:3", none, some "queue",
      some "No direct equivalent - consider external", none, false⟩], []⟩,
    default_port := 8080, environment_files := [],
    has_dockerfile := false, has_docker_compose := true, has_tests := false,
    monorepo_structure := none }

/-- The generator state `AppSpecGenerator.__init__` builds on `exRabbitRepo`
with app name `app` and the test environment. -/
def exRabbitGen : AppSpecGenerator :=
  ⟨"app", "test", unknownPinfo, exRabbitReport, [], []⟩

/-- A generator whose architecture reports a detected redis cache. -/
def exRedisGen : AppSpecGenerator :=
  ⟨"app", "test", unknownPinfo,
   { exEmptyReport with dependencies :=
      ⟨[], [⟨"redis", "docker: redis:7", some "7", some "cache",
        some "Redis EOL on DO - will map to Valkey", none, false⟩], [], []⟩ },
   [], []⟩

/-- A one-service, one-worker architecture for exercising the
environment-differentiation contrast. -/
def exTwoCompArch : ArchReport :=
  { exEmptyReport with
      components := [⟨"web", "service", some "/", some 8080, some "python app.py", none,
        none, none, none, none, none, none⟩,
        ⟨"worker", "worker", some "/", none, some "python worker.py", none,
        none, none, none, none, none, none⟩] }

/-- How the env-file pass may extend a dependency table: the `databases`
and `caches` lists only grow, and every appended entry is marked inferred
and has a type of which the starting table held no entry. -/
def DepsExtension (d dNew : Deps) : Prop :=
  (∃ a, dNew.databases = d.databases ++ a ∧
    ∀ e ∈ a, e.inferred = true ∧ entriesOfType e.type d.databases = []) ∧
  (∃ a, dNew.caches = d.caches ++ a ∧
    ∀ e ∈ a, e.inferred = true ∧ entriesOfType e.type d.caches = [])

/-! # Theorems

Helper lemmas first, then one theorem (plus witness or counterexample) per
claim. -/

/-- An `Except` is `isOk` exactly when it is an `ok`. -/
theorem isOk_iff_exists {ε α : Type} (e : Except ε α) : e.isOk = true ↔ ∃ v, e = .ok v := by
  cases e <;> simp [Except.isOk, Except.toBool]

/-! ## C3: noise pruning of the construction snapshots -/

/-- Every file path the analyzer scanner emits has a noise-free directory
part, provided the starting prefix is noise-free. -/
theorem aaScanFiles_noise_free : ∀ (pfx : List String) (es : List FSEntry),
    pfx.any (fun c => pyIn c aaSkipDirs) = false →
    ∀ p ∈ aaScanFiles pfx es, p.dropLast.any (fun c => pyIn c aaSkipDirs) = false := by
  intro pfx es
  induction pfx, es using aaScanFiles.induct with
  | case1 pfx => intro _ p hp; simp [aaScanFiles] at hp
  | case2 pfx n es ih =>
      intro hpfx p hp
      rw [aaScanFiles] at hp
      rcases List.mem_cons.mp hp with rfl | hp
      · rw [List.dropLast_concat]; exact hpfx
      · exact ih hpfx p hp
  | case3 pfx n cs es ih1 ih2 =>
      intro hpfx p hp
      rw [aaScanFiles] at hp
      rcases List.mem_append.mp hp with hp | hp
      · by_cases h : pyIn n aaSkipDirs = true
        · simp [h] at hp
        · rw [if_neg (by simp [h])] at hp
          refine ih1 ?_ p hp
          simp [List.any_append, hpfx, Bool.eq_false_iff.mpr h]
      · exact ih2 hpfx p hp

/-- Every file path the detector scanner emits has a directory part whose
`rel_root` string matches no noise fragment. -/
theorem pdScanFiles_noise_free : ∀ (pfx : List String) (es : List FSEntry),
    ∀ p ∈ pdScanFiles pfx es,
      pdSkipFragments.any (fun s => containsSub (relRootStr p.dropLast) s) = false := by
  intro pfx es
  induction pfx, es using pdScanFiles.induct with
  | case1 pfx => intro p hp; simp [pdScanFiles] at hp
  | case2 pfx n es ih =>
      intro p hp
      rw [pdScanFiles] at hp
      rcases List.mem_append.mp hp with hp | hp
      · by_cases h : pdSkipFragments.any (fun s => containsSub (relRootStr pfx) s) = true
        · simp [h] at hp
        · rw [if_neg (by simp [h])] at hp
          rcases List.mem_singleton.mp hp with rfl
          rw [List.dropLast_concat]
          exact Bool.eq_false_iff.mpr h
      · exact ih p hp
  | case3 pfx n cs es ih1 ih2 =>
      intro p hp
      rw [pdScanFiles] at hp
      rcases List.mem_append.mp hp with hp | hp
      · exact ih1 p hp
      · exact ih2 p hp

/-- C3, counterexample: on a root containing `.git/hooks`, the directory
snapshot `PlatformDetector.__init__` builds contains the path `.git/hooks`,
which lies inside the noise directory `.git` — `_scan_dirs` prunes nothing,
unlike `_scan_files`. -/
theorem C3_claim_counterexample :
    PlatformDetector.init (.directory [.dir ".git" [.dir "hooks" []]]) =
      .ok ⟨[], [".git", ".git/hooks"]⟩ ∧
    pyIn ".git" pdSkipFragments = true := by
  constructor
  · simp [PlatformDetector.init, pdScanFiles, pdScanDirs, renderPath, joinWith]
  · decide

/-- C3 (amended): both file snapshots contain no path lying inside a noise
directory (the analyzer one has no skip-named directory component; the
detector one has no noise fragment as a substring of its directory part),
but the `PlatformDetector` directory snapshot is not pruned at all
(`C3_claim_counterexample`). -/
theorem C3_amended :
    (∀ (es : List FSEntry) (p : List String), p ∈ aaScanFiles [] es →
      p.dropLast.any (fun c => pyIn c aaSkipDirs) = false) ∧
    (∀ (es : List FSEntry) (p : List String), p ∈ pdScanFiles [] es →
      pdSkipFragments.any (fun s => containsSub (relRootStr p.dropLast) s) = false) :=
  ⟨fun es p hp => aaScanFiles_noise_free [] es (by simp) p hp,
   fun es p hp => pdScanFiles_noise_free [] es p hp⟩

/-- Witness for `C3_amended` on a one-directory tree. -/
theorem C3_witness :
    (["src", "a.txt"] : List String).dropLast.any (fun c => pyIn c aaSkipDirs) = false ∧
    pdSkipFragments.any
      (fun s => containsSub (relRootStr (["src", "a.txt"] : List String).dropLast) s) = false :=
  ⟨C3_amended.1 [.dir "src" [.file "a.txt"]] ["src", "a.txt"]
      (by simp [aaScanFiles]; decide),
   C3_amended.2 [.dir "src" [.file "a.txt"]] ["src", "a.txt"]
      (by simp [pdScanFiles]; decide)⟩

/-! ## C2: construction errors and downstream totality -/

/-- The compose component pass succeeds whenever every first port mapping of
its services parses. -/
theorem parseDockerComposeComponents_isOk (svcs : List (String × ComposeService))
    (h : ∀ p ∈ svcs, p.2.ports ≠ [] → (parseComposePort (p.2.ports.headD "")).isOk = true) :
    (parseDockerComposeComponents svcs).isOk = true := by
  induction svcs with
  | nil => rfl
  | cons hd tl ih =>
      have htl : ∀ p ∈ tl, p.2.ports ≠ [] →
          (parseComposePort (p.2.ports.headD "")).isOk = true :=
        fun p hp => h p (List.mem_cons_of_mem _ hp)
      obtain ⟨name, cfg⟩ := hd
      obtain ⟨tlComps, htlComps⟩ := (isOk_iff_exists _).mp (ih htl)
      rw [parseDockerComposeComponents]
      by_cases h1 : isInfrastructureService name = true
      · rw [if_pos h1]; exact ih htl
      · rw [if_neg h1]
        by_cases h2 : isDatabaseImage cfg.image = true
        · rw [if_pos h2]; exact ih htl
        · rw [if_neg h2]
          by_cases h3 : cfg.ports.isEmpty = true
          · rw [if_pos h3, htlComps]; rfl
          · obtain ⟨v, hv⟩ := (isOk_iff_exists _).mp
              (h (name, cfg) (List.mem_cons_self _ _) (by simpa using h3))
            have hv' : parseComposePort (cfg.ports.headD "") = Except.ok v := hv
            rw [if_neg h3, hv', htlComps]; rfl

/-- Embedding of `_detect_components` succeeds under the same guard. -/
theorem detectComponents_isOk (r : Repo) (h : composePortsParseable r) :
    (detectComponents r).isOk = true := by
  have hcore : (detectComponentsCore r).isOk = true := by
    rw [detectComponentsCore]
    split
    · rfl
    · split
      · exact parseDockerComposeComponents_isOk _ h
      · split
        · rfl
        · split <;> rfl
  obtain ⟨comps, hc⟩ := (isOk_iff_exists _).mp hcore
  rw [detectComponents, hc]
  show (if comps.isEmpty = true then Except.ok [defaultWebComponent r]
    else Except.ok comps).isOk = true
  split <;> rfl

/-- C2, counterexample: a root that exists but is not a directory passes
both constructors (the claimed NotFound error is not raised), and on a
compose manifest with a non-numeric port mapping `analyze()` raises an
error outward (the unguarded `int()`). -/
theorem C2_claim_counterexample :
    (PlatformDetector.init .nondirectory).isOk = true ∧
    (ArchitectureAnalyzer.init .nondirectory).isOk = true ∧
    (analyze exBadPortRepo).isOk = false :=
  ⟨rfl, rfl, by decide⟩

/-- C2 (amended): both constructors raise exactly when the root does not
exist (an existing non-directory root is accepted with an empty snapshot),
and `analyze()` raises no error provided every compose port mapping parses
as an integer; `detect()` and `generate()` contain no failing operation and
are embedded as total functions. -/
theorem C2_amended :
    (∀ rt, (PlatformDetector.init rt).isOk = false ↔ rt = RootTarget.absent) ∧
    (∀ rt, (ArchitectureAnalyzer.init rt).isOk = false ↔ rt = RootTarget.absent) ∧
    (∀ r : Repo, composePortsParseable r → (analyze r).isOk = true) := by
  refine ⟨?_, ?_, ?_⟩
  · intro rt; cases rt <;> simp [PlatformDetector.init, Except.isOk, Except.toBool]
  · intro rt; cases rt <;> simp [ArchitectureAnalyzer.init, Except.isOk, Except.toBool]
  · intro r h
    obtain ⟨comps, hc⟩ := (isOk_iff_exists _).mp (detectComponents_isOk r h)
    rw [analyze, hc]
    rfl

/-- Witness for `C2_amended`: an existing directory root constructs, and
`analyze` succeeds on the empty repository (whose compose service map is
empty, so the port guard holds vacuously). -/
theorem C2_witness :
    (PlatformDetector.init (.directory [])).isOk = true ∧
    (analyze exEmptyRepo).isOk = true := by
  constructor
  · cases hk : (PlatformDetector.init (.directory [])).isOk with
    | false => exact absurd ((C2_amended.1 _).mp hk) (by simp)
    | true => rfl
  · refine C2_amended.2.2 exEmptyRepo ?_
    intro p hp
    simp [parseDockerComposeServices, parseDockerComposeServices.go, exEmptyRepo, pyIn] at hp

/-! ## C5: specific platforms beat the generic Dockerfile fallback -/

/-- Every indicator row with priority below the generic fallback names a
platform other than `generic_docker`. -/
theorem specific_rows_not_generic :
    ∀ i ∈ PLATFORM_INDICATORS, i.priority < 10 → (i.platform == "generic_docker") = false := by
  decide

/-- C5 (confirmed): when the snapshot holds a Dockerfile and at least one
file matched by an indicator row of priority below the generic fallback,
`detect()` names a sub-10-priority hit of at most that priority as primary —
never `generic_docker`. -/
theorem detect_prefers_specific (files dirs : List String) (ind : Indicator)
    (hmem : ind ∈ PLATFORM_INDICATORS) (hpri : ind.priority < 10)
    (_hdock : pyIn "Dockerfile" files = true)
    (hhit : foundFiles files ind ≠ []) :
    ((detect files dirs).primary_platform == "generic_docker") = false ∧
    PLATFORM_INDICATORS.any (fun i =>
      decide (i.priority ≤ ind.priority) && indicatorHit files dirs i
        && ((detect files dirs).primary_platform == i.platform)) = true := by
  have hhit' : indicatorHit files dirs ind = true := by
    cases hf : foundFiles files ind with
    | nil => exact absurd hf hhit
    | cons a l => simp [indicatorHit, hf]
  have hmemHit : mkHit files dirs ind ∈ detectedPlatforms files dirs := by
    simp only [detectedPlatforms]
    exact List.mem_map_of_mem _ (List.mem_filter.mpr ⟨hmem, by simp [hhit']⟩)
  set L := List.insertionSort (fun a b : Hit => a.priority ≤ b.priority)
    (detectedPlatforms files dirs) with hL
  have hLmem : mkHit files dirs ind ∈ L := by
    rw [hL, List.mem_insertionSort]; exact hmemHit
  cases hLc : L with
  | nil => rw [hLc] at hLmem; simp at hLmem
  | cons h0 t =>
      have hsorted : List.Sorted (fun a b : Hit => a.priority ≤ b.priority) L := by
        haveI : IsTotal Hit (fun a b : Hit => a.priority ≤ b.priority) :=
          ⟨fun a b => Nat.le_total _ _⟩
        haveI : IsTrans Hit (fun a b : Hit => a.priority ≤ b.priority) :=
          ⟨fun _ _ _ => Nat.le_trans⟩
        exact List.sorted_insertionSort _ _
      have hmin : h0.priority ≤ (mkHit files dirs ind).priority := by
        rw [hLc] at hLmem hsorted
        rcases List.mem_cons.mp hLmem with heq | hm
        · rw [heq]
        · exact (List.sorted_cons.mp hsorted).1 _ hm
      have hh0 : h0 ∈ detectedPlatforms files dirs := by
        have hin : h0 ∈ L := by rw [hLc]; exact List.mem_cons_self _ _
        rwa [hL, List.mem_insertionSort] at hin
      simp only [detectedPlatforms, List.mem_map] at hh0
      obtain ⟨ind0, hind0mem, hind0eq⟩ := hh0
      have hind0mem' : ind0 ∈ PLATFORM_INDICATORS := (List.mem_filter.mp hind0mem).1
      have hind0hit : indicatorHit files dirs ind0 = true := by
        simpa using (List.mem_filter.mp hind0mem).2
      have hpri0 : ind0.priority ≤ ind.priority := by
        have hpp : h0.priority = ind0.priority := by rw [← hind0eq]; rfl
        rw [hpp] at hmin
        exact hmin
      have hpri0lt : ind0.priority < 10 := lt_of_le_of_lt hpri0 hpri
      have hdet : (detect files dirs).primary_platform = h0.platform := by
        unfold detect
        rw [← hL, hLc]
      have hplat : h0.platform = ind0.platform := by rw [← hind0eq]; rfl
      constructor
      · rw [hdet, hplat]
        exact specific_rows_not_generic ind0 hind0mem' hpri0lt
      · refine List.any_eq_true.mpr ⟨ind0, hind0mem', ?_⟩
        simp [hpri0, hind0hit, hdet, hplat]

/-- Witness for `detect_prefers_specific`: a snapshot with both a `Procfile`
(the priority-1 heroku row) and a `Dockerfile`. -/
theorem C5_witness :
    ((detect ["Procfile", "Dockerfile"] []).primary_platform == "generic_docker") = false ∧
    PLATFORM_INDICATORS.any (fun i =>
      decide (i.priority ≤ (⟨"heroku", ["Procfile", "app.json", "heroku.yml"], [], [], 1,
        "Heroku PaaS"⟩ : Indicator).priority)
        && indicatorHit ["Procfile", "Dockerfile"] [] i
        && ((detect ["Procfile", "Dockerfile"] []).primary_platform == i.platform)) = true :=
  detect_prefers_specific ["Procfile", "Dockerfile"] []
    ⟨"heroku", ["Procfile", "app.json", "heroku.yml"], [], [], 1, "Heroku PaaS"⟩
    (by decide) (by decide) (by decide) (by decide)

/-! ## C9: repositories with no recognizable manifest -/

/-- Without any runtime-indicator file, `_detect_runtime` reports
`unknown`. -/
theorem detectRuntime_unknown (r : Repo) (h : noRecognizableManifest r.files) :
    detectRuntime r = "unknown" := by
  obtain ⟨hall, hsuffix⟩ := h
  simp [detectRuntime,
    hall "package.json" (by decide), hall "requirements.txt" (by decide),
    hall "Pipfile" (by decide), hall "pyproject.toml" (by decide),
    hall "setup.py" (by decide), hall "go.mod" (by decide), hall "go.sum" (by decide),
    hall "Gemfile" (by decide), hall "Gemfile.lock" (by decide),
    hall "composer.json" (by decide), hall "composer.lock" (by decide),
    hall "pom.xml" (by decide), hall "build.gradle" (by decide),
    hall "build.gradle.kts" (by decide), hall "Cargo.toml" (by decide),
    hall "mix.exs" (by decide), hall "bun.lockb" (by decide), hsuffix]

/-- Without manifests, markers, or conventional frontend directories,
`_detect_architecture_type` reports `monolith` (backend-only directories
hit no branch before the default). -/
theorem detectArchitectureType_monolith (r : Repo) (h1 : noRecognizableManifest r.files)
    (h2 : noConventionalFrontendDirs r.files) :
    detectArchitectureType r = "monolith" := by
  obtain ⟨hall, _⟩ := h1
  have hfront : hasDirPrefix r.files frontendDirsArch = false := h2
  simp [detectArchitectureType, staticIndicators,
    hall "docker-compose.yml" (by decide), hall "docker-compose.yaml" (by decide),
    hall "gatsby-config.js" (by decide), hall "next.config.js" (by decide),
    hall "nuxt.config.js" (by decide), hall "astro.config.mjs" (by decide),
    hall "vite.config.js" (by decide), hall "vite.config.ts" (by decide),
    hall "config.toml" (by decide), hall "_config.yml" (by decide),
    hall "hugo.toml" (by decide), hfront]

/-- Without any component manifest, `_detect_components` synthesizes the
single default web service. -/
theorem detectComponents_default (r : Repo) (h : noRecognizableManifest r.files) :
    detectComponents r = .ok [defaultWebComponent r] := by
  obtain ⟨hall, _⟩ := h
  have hcore : detectComponentsCore r = .ok [] := by
    simp [detectComponentsCore,
      hall "Procfile" (by decide), hall "docker-compose.yml" (by decide),
      hall "docker-compose.yaml" (by decide), hall "render.yaml" (by decide),
      hall "render.yml" (by decide), hall "fly.toml" (by decide)]
  rw [detectComponents, hcore]
  rfl

/-- C9 (amended): a repository with no recognizable manifest *and no file
under a conventional frontend directory* analyzes to runtime `unknown`,
architecture `monolith`, and exactly the one synthesized `web` service.
(Without the frontend-directory condition the claim fails:
`C9_claim_counterexample`. Backend-only directories such as `server/` are
harmless and remain covered.) -/
theorem C9_amended (r : Repo) (h1 : noRecognizableManifest r.files)
    (h2 : noConventionalFrontendDirs r.files) :
    (analyze r).map (fun rep => (rep.runtime, rep.architecture_type, rep.components)) =
      .ok ("unknown", "monolith", [defaultWebComponent r]) ∧
    (defaultWebComponent r).name = "web" ∧ (defaultWebComponent r).type = "service" := by
  refine ⟨?_, rfl, rfl⟩
  rw [analyze, detectComponents_default r h1]
  show Except.ok _ = _
  rw [detectRuntime_unknown r h1, detectArchitectureType_monolith r h1 h2]

/-- C9, counterexample: a repository whose only file is
`frontend/index.html` has no recognizable manifest, yet analyzes to
`static-site`, not `monolith` (the frontend-directory probe fires). -/
theorem C9_claim_counterexample :
    noRecognizableManifest exFrontendRepo.files ∧
    (analyze exFrontendRepo).map (fun rep => rep.architecture_type) = .ok "static-site" :=
  ⟨⟨by decide, by decide⟩, by decide⟩

/-- Witness for `C9_amended`: a backend-only-directory repository
(`server/readme.md`), covered by the amendment since only frontend
directories divert the architecture chain. -/
theorem C9_witness :
    (analyze exBackendOnlyRepo).map
        (fun rep => (rep.runtime, rep.architecture_type, rep.components)) =
      .ok ("unknown", "monolith", [defaultWebComponent exBackendOnlyRepo]) ∧
    (defaultWebComponent exBackendOnlyRepo).name = "web" ∧
    (defaultWebComponent exBackendOnlyRepo).type = "service" :=
  C9_amended exBackendOnlyRepo ⟨by decide, by decide⟩
    (show hasDirPrefix exBackendOnlyRepo.files frontendDirsArch = false by decide)

/-! ## C4: services and ports -/

/-- Boolean form of "a service component carries a port". -/
theorem comp_port_bool (c : Component) (h : c.type = "service" → c.port.isSome = true) :
    (!(c.type == "service") || c.port.isSome) = true := by
  by_cases ht : c.type = "service"
  · simp [ht, h ht]
  · simp [ht]

/-- Every Procfile service gets the default port. -/
theorem parseProcfile_service_port (r : Repo) :
    ∀ c ∈ parseProcfile r, c.type = "service" → c.port.isSome = true := by
  intro c hc htype
  rw [parseProcfile] at hc
  cases hrt : r.readText "Procfile" with
  | none => rw [hrt] at hc; simp at hc
  | some content =>
      rw [hrt] at hc
      simp only [List.mem_filterMap] at hc
      obtain ⟨line, _, hline⟩ := hc
      by_cases hcnd : (containsSub line ":" && !(pyStartsWith (pyStrip line) "#")) = true
      · rw [if_pos hcnd] at hline
        injection hline with hrec
        subst hrec
        simp only [Component.base] at htype ⊢
        rw [htype]
        simp
      · rw [if_neg hcnd] at hline
        exact Option.noConfusion hline

/-- Every compose-derived service gets the parsed port. -/
theorem parseDockerComposeComponents_service_port (svcs : List (String × ComposeService)) :
    ∀ comps, parseDockerComposeComponents svcs = .ok comps →
      ∀ c ∈ comps, c.type = "service" → c.port.isSome = true := by
  induction svcs with
  | nil =>
      intro comps h
      obtain rfl := Except.ok.inj h
      intro c hc; simp at hc
  | cons hd tl ih =>
      intro comps h
      obtain ⟨name, cfg⟩ := hd
      rw [parseDockerComposeComponents] at h
      by_cases h1 : isInfrastructureService name = true
      · rw [if_pos h1] at h; exact ih comps h
      · rw [if_neg h1] at h
        by_cases h2 : isDatabaseImage cfg.image = true
        · rw [if_pos h2] at h; exact ih comps h
        · rw [if_neg h2] at h
          by_cases h3 : cfg.ports.isEmpty = true
          · rw [if_pos h3] at h
            cases htl : parseDockerComposeComponents tl with
            | error e => rw [htl] at h; exact Except.noConfusion h
            | ok tail =>
                rw [htl] at h
                obtain rfl := Except.ok.inj h
                intro c hc htype
                rcases List.mem_cons.mp hc with rfl | hc
                · simp only [Component.base] at htype
                  rw [if_pos h3] at htype
                  exact absurd htype (by decide)
                · exact ih tail htl c hc htype
          · cases hpp : parseComposePort (cfg.ports.headD "") with
            | error e => rw [if_neg h3, hpp] at h; exact Except.noConfusion h
            | ok v =>
                rw [if_neg h3, hpp] at h
                cases htl : parseDockerComposeComponents tl with
                | error e => rw [htl] at h; exact Except.noConfusion h
                | ok tail =>
                    rw [htl] at h
                    obtain rfl := Except.ok.inj h
                    intro c hc htype
                    rcases List.mem_cons.mp hc with rfl | hc
                    · simp [Component.base]
                    · exact ih tail htl c hc htype

/-- The fly component always carries a port. -/
theorem parseFlyToml_service_port (r : Repo) :
    ∀ c ∈ parseFlyToml r, c.type = "service" → c.port.isSome = true := by
  intro c hc _
  rw [parseFlyToml] at hc
  cases hrt : r.readText "fly.toml" with
  | none => rw [hrt] at hc; simp at hc
  | some content =>
      rw [hrt] at hc
      rcases List.mem_singleton.mp hc with rfl
      simp [Component.base]

/-- C4 (amended): in every successful analysis that did not settle on the
render manifest, every `service` component carries a port; render-manifest
services carry one only when the manifest declares it
(`C4_claim_counterexample`). -/
theorem C4_amended (r : Repo) (rep : ArchReport) (h : analyze r = .ok rep)
    (hnr : usesRenderManifest r = false) :
    rep.components.all (fun c => !(c.type == "service") || c.port.isSome) = true := by
  have hcomp : detectComponents r = .ok rep.components := by
    cases hdc : detectComponents r with
    | error e => rw [analyze, hdc] at h; exact Except.noConfusion h
    | ok comps =>
        rw [analyze, hdc] at h
        have hrep := Except.ok.inj h
        have hcc : comps = rep.components := congrArg ArchReport.components hrep
        exact congrArg Except.ok hcc
  rw [detectComponents] at hcomp
  cases hcore : detectComponentsCore r with
  | error e => rw [hcore] at hcomp; exact Except.noConfusion hcomp
  | ok comps0 =>
      rw [hcore] at hcomp
      have hcomp2 : (if comps0.isEmpty = true then Except.ok [defaultWebComponent r]
          else Except.ok comps0) = Except.ok rep.components := hcomp
      have hfromCore : ∀ c ∈ comps0, c.type = "service" → c.port.isSome = true := by
        rw [detectComponentsCore] at hcore
        by_cases hpf : pyIn "Procfile" r.files = true
        · rw [if_pos hpf] at hcore
          obtain rfl := Except.ok.inj hcore
          exact parseProcfile_service_port r
        · rw [if_neg hpf] at hcore
          by_cases hcf : (["docker-compose.yml", "docker-compose.yaml"].any
              (fun f => pyIn f r.files)) = true
          · rw [if_pos hcf] at hcore
            exact parseDockerComposeComponents_service_port _ comps0 hcore
          · rw [if_neg hcf] at hcore
            by_cases hrf : (["render.yaml", "render.yml"].any (fun f => pyIn f r.files)) = true
            · have hren : usesRenderManifest r = true := by
                simp [usesRenderManifest, hpf, hcf, hrf]
              rw [hren] at hnr
              exact Bool.noConfusion hnr
            · rw [if_neg hrf] at hcore
              by_cases hfly : pyIn "fly.toml" r.files = true
              · rw [if_pos hfly] at hcore
                obtain rfl := Except.ok.inj hcore
                exact parseFlyToml_service_port r
              · rw [if_neg hfly] at hcore
                obtain rfl := Except.ok.inj hcore
                intro c hc; simp at hc
      by_cases hemp : comps0.isEmpty = true
      · rw [if_pos hemp] at hcomp2
        have hrep := Except.ok.inj hcomp2
        rw [← hrep, List.all_eq_true]
        intro c hc
        rcases List.mem_singleton.mp hc with rfl
        exact comp_port_bool _ (fun _ => by simp [defaultWebComponent, Component.base])
      · rw [if_neg hemp] at hcomp2
        have hrep := Except.ok.inj hcomp2
        rw [← hrep, List.all_eq_true]
        intro c hc
        exact comp_port_bool c (hfromCore c hc)

/-- C4, counterexample: a render manifest whose web service declares no
port yields a `service` component with a null port. -/
theorem C4_claim_counterexample :
    (analyze exRenderRepo).map (fun rep => rep.components.map (fun c => (c.type, c.port))) =
      .ok [("service", (none : Option Int))] := by
  decide

/-- Witness for `C4_amended`: the empty repository (its one synthesized
service carries port 8080). -/
theorem C4_witness :
    exEmptyReport.components.all (fun c => !(c.type == "service") || c.port.isSome) = true :=
  C4_amended exEmptyRepo exEmptyReport (by decide) (by decide)

/-! ## C6: dependency deduplication across the two passes -/

/-- Embedding of `entriesOfType` distributes over append. -/
theorem entriesOfType_append (t : String) (l1 l2 : List DepEntry) :
    entriesOfType t (l1 ++ l2) = entriesOfType t l1 ++ entriesOfType t l2 := by
  simp [entriesOfType, List.filter_append]

/-- Emptiness of a type slice transfers to a prefix. -/
theorem entriesOfType_nil_left (t : String) (l1 l2 : List DepEntry)
    (h : entriesOfType t (l1 ++ l2) = []) : entriesOfType t l1 = [] := by
  rw [entriesOfType_append] at h
  exact (List.append_eq_nil.mp h).1

/-- Embedding of `DepsExtension` is reflexive. -/
theorem depsExtension_refl (d : Deps) : DepsExtension d d :=
  ⟨⟨[], by simp, by simp⟩, ⟨[], by simp, by simp⟩⟩

/-- Embedding of `DepsExtension` is transitive. -/
theorem depsExtension_trans {d1 d2 d3 : Deps}
    (h12 : DepsExtension d1 d2) (h23 : DepsExtension d2 d3) : DepsExtension d1 d3 := by
  obtain ⟨⟨a1, ha1, hp1⟩, ⟨b1, hb1, hq1⟩⟩ := h12
  obtain ⟨⟨a2, ha2, hp2⟩, ⟨b2, hb2, hq2⟩⟩ := h23
  refine ⟨⟨a1 ++ a2, by rw [ha2, ha1, List.append_assoc], ?_⟩,
          ⟨b1 ++ b2, by rw [hb2, hb1, List.append_assoc], ?_⟩⟩
  · intro e he
    rcases List.mem_append.mp he with he | he
    · exact hp1 e he
    · obtain ⟨hi, hz⟩ := hp2 e he
      rw [ha1] at hz
      exact ⟨hi, entriesOfType_nil_left _ _ _ hz⟩
  · intro e he
    rcases List.mem_append.mp he with he | he
    · exact hq1 e he
    · obtain ⟨hi, hz⟩ := hq2 e he
      rw [hb1] at hz
      exact ⟨hi, entriesOfType_nil_left _ _ _ hz⟩

/-- The PostgreSQL env step is a `DepsExtension`. -/
theorem enhanceStepPg_ext (f c : String) (d : Deps) :
    DepsExtension d (enhanceStepPg f c d) := by
  rw [enhanceStepPg]
  by_cases h : (containsSub c "postgres" && (entriesOfType "postgres" d.databases).isEmpty) = true
  · rw [if_pos h]
    refine ⟨⟨[inferredDep "postgres" f none], rfl, ?_⟩, ⟨[], by simp, by simp⟩⟩
    intro e he
    rcases List.mem_singleton.mp he with rfl
    refine ⟨rfl, ?_⟩
    have hemp := (Bool.and_eq_true ..).mp h |>.2
    simpa [List.isEmpty_iff] using hemp
  · rw [if_neg h]; exact depsExtension_refl d

/-- The MySQL env step is a `DepsExtension`. -/
theorem enhanceStepMysql_ext (f c : String) (d : Deps) :
    DepsExtension d (enhanceStepMysql f c d) := by
  rw [enhanceStepMysql]
  by_cases h : (containsSub c "mysql" && (entriesOfType "mysql" d.databases).isEmpty) = true
  · rw [if_pos h]
    refine ⟨⟨[inferredDep "mysql" f none], rfl, ?_⟩, ⟨[], by simp, by simp⟩⟩
    intro e he
    rcases List.mem_singleton.mp he with rfl
    refine ⟨rfl, ?_⟩
    have hemp := (Bool.and_eq_true ..).mp h |>.2
    simpa [List.isEmpty_iff] using hemp
  · rw [if_neg h]; exact depsExtension_refl d

/-- The Redis env step is a `DepsExtension`. -/
theorem enhanceStepRedis_ext (f c : String) (d : Deps) :
    DepsExtension d (enhanceStepRedis f c d) := by
  rw [enhanceStepRedis]
  by_cases h : (containsSub c "redis" && (entriesOfType "redis" d.caches).isEmpty) = true
  · rw [if_pos h]
    refine ⟨⟨[], by simp, by simp⟩,
            ⟨[inferredDep "redis" f (some "Redis EOL on DO - will map to Valkey")], rfl, ?_⟩⟩
    intro e he
    rcases List.mem_singleton.mp he with rfl
    refine ⟨rfl, ?_⟩
    have hemp := (Bool.and_eq_true ..).mp h |>.2
    simpa [List.isEmpty_iff] using hemp
  · rw [if_neg h]; exact depsExtension_refl d

/-- The S3 env step leaves databases and caches alone. -/
theorem enhanceStepS3_ext (f c : String) (d : Deps) :
    DepsExtension d (enhanceStepS3 f c d) := by
  rw [enhanceStepS3]
  by_cases h : ((containsSub c "s3" || containsSub c "aws_access"
      || containsSub c "spaces") && d.storage.isEmpty) = true
  · rw [if_pos h]
    exact ⟨⟨[], by simp, by simp⟩, ⟨[], by simp, by simp⟩⟩
  · rw [if_neg h]; exact depsExtension_refl d

/-- One env file only extends the tables in the `DepsExtension` sense. -/
theorem enhanceFromFile_ext (f c : String) (d : Deps) :
    DepsExtension d (enhanceFromFile f c d) :=
  depsExtension_trans (enhanceStepPg_ext f c d)
    (depsExtension_trans (enhanceStepMysql_ext f c _)
      (depsExtension_trans (enhanceStepRedis_ext f c _) (enhanceStepS3_ext f c _)))

/-- The whole env-file pass only extends the tables. -/
theorem enhanceDepsFromCode_ext (r : Repo) (d : Deps) :
    DepsExtension d (enhanceDepsFromCode r d) := by
  rw [enhanceDepsFromCode]
  generalize (r.files.filter (fun f => containsSub (lowerStr f) ".env")) = fs
  induction fs generalizing d with
  | nil => exact depsExtension_refl d
  | cons f fs ih =>
      rw [List.foldl_cons]
      refine depsExtension_trans ?_ (ih _)
      cases r.readText f with
      | none => exact depsExtension_refl d
      | some content => exact enhanceFromFile_ext f (lowerStr content) d

/-- An extension adds no entry of an already-present type. -/
theorem depsExtension_count_db (d dNew : Deps) (h : DepsExtension d dNew) (t : String)
    (hne : entriesOfType t d.databases ≠ []) :
    (entriesOfType t dNew.databases).length = (entriesOfType t d.databases).length := by
  obtain ⟨⟨a, ha, hp⟩, _⟩ := h
  rw [ha, entriesOfType_append, List.length_append]
  suffices hz : entriesOfType t a = [] by rw [hz]; simp
  cases hz : entriesOfType t a with
  | nil => rfl
  | cons x xs =>
      have hx : x ∈ entriesOfType t a := by rw [hz]; exact List.mem_cons_self _ _
      have hxa := List.mem_filter.mp hx
      obtain ⟨_, hempty⟩ := hp x hxa.1
      have hxt : x.type = t := by simpa using hxa.2
      rw [hxt] at hempty
      exact absurd hempty hne

/-- Cache version of `depsExtension_count_db`. -/
theorem depsExtension_count_cache (d dNew : Deps) (h : DepsExtension d dNew) (t : String)
    (hne : entriesOfType t d.caches ≠ []) :
    (entriesOfType t dNew.caches).length = (entriesOfType t d.caches).length := by
  obtain ⟨_, ⟨a, ha, hp⟩⟩ := h
  rw [ha, entriesOfType_append, List.length_append]
  suffices hz : entriesOfType t a = [] by rw [hz]; simp
  cases hz : entriesOfType t a with
  | nil => rfl
  | cons x xs =>
      have hx : x ∈ entriesOfType t a := by rw [hz]; exact List.mem_cons_self _ _
      have hxa := List.mem_filter.mp hx
      obtain ⟨_, hempty⟩ := hp x hxa.1
      have hxt : x.type = t := by simpa using hxa.2
      rw [hxt] at hempty
      exact absurd hempty hne

/-- C6 (amended): the env-file pass never adds an entry of a type the
structured pass already produced — the final table holds exactly the pass-1
entries of every already-present type (one when pass 1 yielded one; the
as-stated "exactly one" fails when the manifest itself yields several:
`C6_claim_counterexample`) — and every entry the env pass does add is
marked inferred. -/
theorem C6_amended (r : Repo) (t : String) :
    (entriesOfType t (depsPass1 r).databases ≠ [] →
      (entriesOfType t ((detectDependencies r).databases)).length =
        (entriesOfType t ((depsPass1 r).databases)).length) ∧
    (entriesOfType t (depsPass1 r).caches ≠ [] →
      (entriesOfType t ((detectDependencies r).caches)).length =
        (entriesOfType t ((depsPass1 r).caches)).length) ∧
    ((detectDependencies r).databases.all
      (fun e => decide (e ∈ (depsPass1 r).databases) || e.inferred) = true) ∧
    ((detectDependencies r).caches.all
      (fun e => decide (e ∈ (depsPass1 r).caches) || e.inferred) = true) := by
  have hext : DepsExtension (depsPass1 r) (detectDependencies r) := by
    rw [detectDependencies]
    exact enhanceDepsFromCode_ext r (depsPass1 r)
  refine ⟨fun hne => depsExtension_count_db _ _ hext t hne,
          fun hne => depsExtension_count_cache _ _ hext t hne, ?_, ?_⟩
  · obtain ⟨⟨a, ha, hp⟩, _⟩ := hext
    rw [ha, List.all_eq_true]
    intro e he
    rcases List.mem_append.mp he with he | he
    · simp [he]
    · simp [(hp e he).1]
  · obtain ⟨_, ⟨a, ha, hp⟩⟩ := hext
    rw [ha, List.all_eq_true]
    intro e he
    rcases List.mem_append.mp he with he | he
    · simp [he]
    · simp [(hp e he).1]

/-- C6, counterexample: a compose file with two postgres images plus an env
template mentioning postgres yields two postgres entries in the final
report, not one — both from pass 1 (the env pass itself adds none). -/
theorem C6_claim_counterexample :
    (exDoublePgRepo.files.filter (fun f => containsSub (lowerStr f) ".env")) = [".env.example"] ∧
    containsSub (lowerStr "DATABASE_URL=postgres://localhost/app") "postgres" = true ∧
    (entriesOfType "postgres" ((depsPass1 exDoublePgRepo).databases)).length = 2 ∧
    (entriesOfType "postgres" ((detectDependencies exDoublePgRepo).databases)).length = 2 := by
  refine ⟨by decide, by decide, by decide, by decide⟩

/-- Witness for `C6_amended`: one postgres image plus an env template
mentioning postgres — exactly one entry survives. -/
theorem C6_witness :
    (entriesOfType "postgres" ((detectDependencies exDedupRepo).databases)).length =
      (entriesOfType "postgres" ((depsPass1 exDedupRepo).databases)).length ∧
    ((detectDependencies exDedupRepo).databases.all
      (fun e => decide (e ∈ (depsPass1 exDedupRepo).databases) || e.inferred) = true) :=
  ⟨(C6_amended exDedupRepo "postgres").1 (by decide),
   (C6_amended exDedupRepo "postgres").2.2.1⟩

/-! ## C7: cache aliasing in the generated bindings -/

/-- Every generated component spec carries the same env-binding list
(`_generate_env_vars` ignores its component argument). -/
theorem generateComponentSpec_envs (g : AppSpecGenerator) (c : Component)
    (url : Option String) (branch : String) :
    (generateComponentSpec g c url branch).envs = generateEnvVars g.architecture := by
  rw [generateComponentSpec]
  split
  · rfl
  · split
    · rfl
    · split
      · rfl
      · split <;> rfl

/-- When a redis cache was detected, the binding list holds `VALKEY_URL` and
`REDIS_URL`, and every binding under either key carries the cache
substitution value. -/
theorem generateEnvVars_redis (arch : ArchReport)
    (h : "redis" ∈ arch.dependencies.caches.map (fun c => c.type)) :
    (generateEnvVars arch).any (fun e => e.key == "VALKEY_URL") = true ∧
    (generateEnvVars arch).any (fun e => e.key == "REDIS_URL") = true ∧
    (generateEnvVars arch).all (fun e => !(e.key == "VALKEY_URL" || e.key == "REDIS_URL") ||
      (e.value == some "$\x7bcache.DATABASE_URL\x7d")) = true := by
  obtain ⟨c, hc, hct0⟩ := List.mem_map.mp h
  have hct : c.type = "redis" := hct0
  have hmemV : (⟨"VALKEY_URL", "RUN_TIME", some "$\x7bcache.DATABASE_URL\x7d", none⟩ : EnvVar) ∈
      arch.dependencies.caches.flatMap (fun cache =>
        if cache.type == "redis" || cache.type == "valkey" then
          [⟨"VALKEY_URL", "RUN_TIME", some "$\x7bcache.DATABASE_URL\x7d", none⟩,
           ⟨"REDIS_URL", "RUN_TIME", some "$\x7bcache.DATABASE_URL\x7d", none⟩]
        else []) :=
    List.mem_flatMap.mpr ⟨c, hc, by rw [hct]; decide⟩
  have hmemR : (⟨"REDIS_URL", "RUN_TIME", some "$\x7bcache.DATABASE_URL\x7d", none⟩ : EnvVar) ∈
      arch.dependencies.caches.flatMap (fun cache =>
        if cache.type == "redis" || cache.type == "valkey" then
          [⟨"VALKEY_URL", "RUN_TIME", some "$\x7bcache.DATABASE_URL\x7d", none⟩,
           ⟨"REDIS_URL", "RUN_TIME", some "$\x7bcache.DATABASE_URL\x7d", none⟩]
        else []) :=
    List.mem_flatMap.mpr ⟨c, hc, by rw [hct]; decide⟩
  have hallDb : (arch.dependencies.databases.filterMap (fun db =>
      if db.type == "postgres" then
        some (⟨"DATABASE_URL", "RUN_TIME", some "$\x7bdb.DATABASE_URL\x7d", none⟩ : EnvVar)
      else if db.type == "mysql" then
        some (⟨"MYSQL_URL", "RUN_TIME", some "$\x7bdb.DATABASE_URL\x7d", none⟩ : EnvVar)
      else none)).all (fun (e : EnvVar) => !(e.key == "VALKEY_URL" || e.key == "REDIS_URL") ||
        (e.value == some "$\x7bcache.DATABASE_URL\x7d")) = true := by
    rw [List.all_eq_true]
    intro e he
    obtain ⟨db, _, hdb⟩ := List.mem_filterMap.mp he
    by_cases h1 : (db.type == "postgres") = true
    · rw [if_pos h1] at hdb
      injection hdb with hdb
      subst hdb
      decide
    · rw [if_neg h1] at hdb
      by_cases h2 : (db.type == "mysql") = true
      · rw [if_pos h2] at hdb
        injection hdb with hdb
        subst hdb
        decide
      · rw [if_neg h2] at hdb
        exact Option.noConfusion hdb
  have hallCa : (arch.dependencies.caches.flatMap (fun cache =>
      if cache.type == "redis" || cache.type == "valkey" then
        ([⟨"VALKEY_URL", "RUN_TIME", some "$\x7bcache.DATABASE_URL\x7d", none⟩,
          ⟨"REDIS_URL", "RUN_TIME", some "$\x7bcache.DATABASE_URL\x7d", none⟩] : List EnvVar)
      else [])).all (fun (e : EnvVar) => !(e.key == "VALKEY_URL" || e.key == "REDIS_URL") ||
        (e.value == some "$\x7bcache.DATABASE_URL\x7d")) = true := by
    rw [List.all_eq_true]
    intro e he
    obtain ⟨cc, _, hcc⟩ := List.mem_flatMap.mp he
    by_cases h1 : (cc.type == "redis" || cc.type == "valkey") = true
    · rw [if_pos h1] at hcc
      rcases List.mem_cons.mp hcc with rfl | hcc
      · decide
      · rcases List.mem_singleton.mp hcc with rfl
        decide
    · rw [if_neg h1] at hcc
      exact absurd hcc (List.not_mem_nil _)
  have hcaV : (arch.dependencies.caches.flatMap (fun cache =>
      if cache.type == "redis" || cache.type == "valkey" then
        ([⟨"VALKEY_URL", "RUN_TIME", some "$\x7bcache.DATABASE_URL\x7d", none⟩,
          ⟨"REDIS_URL", "RUN_TIME", some "$\x7bcache.DATABASE_URL\x7d", none⟩] : List EnvVar)
      else [])).any (fun e => e.key == "VALKEY_URL") = true :=
    List.any_eq_true.mpr ⟨_, hmemV, by decide⟩
  have hcaR : (arch.dependencies.caches.flatMap (fun cache =>
      if cache.type == "redis" || cache.type == "valkey" then
        ([⟨"VALKEY_URL", "RUN_TIME", some "$\x7bcache.DATABASE_URL\x7d", none⟩,
          ⟨"REDIS_URL", "RUN_TIME", some "$\x7bcache.DATABASE_URL\x7d", none⟩] : List EnvVar)
      else [])).any (fun e => e.key == "REDIS_URL") = true :=
    List.any_eq_true.mpr ⟨_, hmemR, by decide⟩
  refine ⟨?_, ?_, ?_⟩
  · rw [generateEnvVars]
    simp only [List.any_append, hcaV, Bool.or_true, Bool.true_or]
  · rw [generateEnvVars]
    simp only [List.any_append, hcaR, Bool.or_true, Bool.true_or]
  · rw [generateEnvVars]
    simp only [List.all_append, Bool.and_eq_true]
    exact ⟨⟨⟨hallDb, hallCa⟩, by decide⟩, by simp⟩

/-- C7 (confirmed): whenever redis is among the detected caches, the env
list generated for every component of the spec contains both a `VALKEY_URL`
and a `REDIS_URL` binding, and every binding under either key carries the
same substitution value. -/
theorem C7_cache_alias (g : AppSpecGenerator) (url : Option String) (branch : String)
    (hredis : "redis" ∈ g.architecture.dependencies.caches.map (fun c => c.type)) :
    (allComponentSpecs (generate g url branch).1).all (fun cs =>
      cs.envs.any (fun e => e.key == "VALKEY_URL") &&
      cs.envs.any (fun e => e.key == "REDIS_URL") &&
      cs.envs.all (fun e => !(e.key == "VALKEY_URL" || e.key == "REDIS_URL") ||
        (e.value == some "$\x7bcache.DATABASE_URL\x7d"))) = true := by
  obtain ⟨h1, h2, h3⟩ := generateEnvVars_redis g.architecture hredis
  rw [List.all_eq_true]
  intro cs hcs
  have henvs : cs.envs = generateEnvVars g.architecture := by
    have hcs2 := hcs
    simp only [generate, allComponentSpecs, List.mem_append, List.mem_map] at hcs2
    rcases hcs2 with ((⟨c, -, rfl⟩ | ⟨c, -, rfl⟩) | ⟨c, -, rfl⟩) | ⟨c, -, rfl⟩ <;>
      exact generateComponentSpec_envs g c url branch
  rw [henvs, h1, h2, h3]
  rfl

/-- Witness for `C7_cache_alias`: a generator whose architecture detected a
redis cache. -/
theorem C7_witness :
    (allComponentSpecs (generate exRedisGen none "main").1).all (fun cs =>
      cs.envs.any (fun e => e.key == "VALKEY_URL") &&
      cs.envs.any (fun e => e.key == "REDIS_URL") &&
      cs.envs.all (fun e => !(e.key == "VALKEY_URL" || e.key == "REDIS_URL") ||
        (e.value == some "$\x7bcache.DATABASE_URL\x7d"))) = true :=
  C7_cache_alias exRedisGen none "main" (by decide)

/-! ## C8: environment differentiation -/

/-- The service-branch fields of `_generate_component_spec`. -/
theorem generateComponentSpec_service (g : AppSpecGenerator) (c : Component)
    (url : Option String) (branch : String) (h : c.type = "service") :
    (generateComponentSpec g c url branch).name = c.name ∧
    (generateComponentSpec g c url branch).instance_count =
      some (if g.environment == "production" then 2 else 1) ∧
    (generateComponentSpec g c url branch).autoscaling =
      (if g.environment == "production" then some ⟨2, 5, "CPU", 80⟩ else none) := by
  rw [generateComponentSpec, if_pos (show (c.type == "service") = true by simp [h])]
  exact ⟨rfl, rfl, rfl⟩

/-- The worker-branch fields of `_generate_component_spec`. -/
theorem generateComponentSpec_worker (g : AppSpecGenerator) (c : Component)
    (url : Option String) (branch : String) (h : c.type = "worker") :
    (generateComponentSpec g c url branch).name = c.name ∧
    (generateComponentSpec g c url branch).instance_count =
      some (if g.environment == "production" then 2 else 1) := by
  rw [generateComponentSpec,
    if_neg (show ¬(c.type == "service") = true by simp [h]),
    if_pos (show (c.type == "worker") = true by simp [h])]
  exact ⟨rfl, rfl⟩

/-- C8 (confirmed): on the same analysis, the production spec and the test
spec pair up service-by-service and worker-by-worker; production always
gets instance count 2 with an autoscaling block, test always gets 1 with
none (so production counts are ≥ test counts throughout). -/
theorem C8_environment_differentiation (pinfo : DetectionResult) (arch : ArchReport)
    (appName : String) (url : Option String) (branch : String) :
    ((generate ⟨appName, "production", pinfo, arch, [], []⟩ url branch).1.services.length =
      (generate ⟨appName, "test", pinfo, arch, [], []⟩ url branch).1.services.length) ∧
    ((generate ⟨appName, "production", pinfo, arch, [], []⟩ url branch).1.workers.length =
      (generate ⟨appName, "test", pinfo, arch, [], []⟩ url branch).1.workers.length) ∧
    (((generate ⟨appName, "production", pinfo, arch, [], []⟩ url branch).1.services.zip
        (generate ⟨appName, "test", pinfo, arch, [], []⟩ url branch).1.services).all
      (fun pr => pr.1.name == pr.2.name && pr.1.instance_count == some 2
        && pr.2.instance_count == some 1
        && pr.1.autoscaling.isSome && pr.2.autoscaling == none) = true) ∧
    (((generate ⟨appName, "production", pinfo, arch, [], []⟩ url branch).1.workers.zip
        (generate ⟨appName, "test", pinfo, arch, [], []⟩ url branch).1.workers).all
      (fun pr => pr.1.name == pr.2.name && pr.1.instance_count == some 2
        && pr.2.instance_count == some 1) = true) := by
  refine ⟨by simp [generate], by simp [generate], ?_, ?_⟩
  · show (((arch.components.filter (fun c => c.type == "service")).map
        (fun c => generateComponentSpec ⟨appName, "production", pinfo, arch, [], []⟩
          c url branch)).zip
      ((arch.components.filter (fun c => c.type == "service")).map
        (fun c => generateComponentSpec ⟨appName, "test", pinfo, arch, [], []⟩
          c url branch))).all _ = true
    rw [List.zip_map', List.all_eq_true]
    intro pr hpr
    obtain ⟨c, hcmem, rfl⟩ := List.mem_map.mp hpr
    have hct : c.type = "service" := by simpa using (List.mem_filter.mp hcmem).2
    obtain ⟨hn1, hi1, ha1⟩ := generateComponentSpec_service
      ⟨appName, "production", pinfo, arch, [], []⟩ c url branch hct
    obtain ⟨hn2, hi2, ha2⟩ := generateComponentSpec_service
      ⟨appName, "test", pinfo, arch, [], []⟩ c url branch hct
    simp only at hi1 hi2 ha1 ha2
    simp [hn1, hn2, hi1, hi2, ha1, ha2]
  · show (((arch.components.filter (fun c => c.type == "worker")).map
        (fun c => generateComponentSpec ⟨appName, "production", pinfo, arch, [], []⟩
          c url branch)).zip
      ((arch.components.filter (fun c => c.type == "worker")).map
        (fun c => generateComponentSpec ⟨appName, "test", pinfo, arch, [], []⟩
          c url branch))).all _ = true
    rw [List.zip_map', List.all_eq_true]
    intro pr hpr
    obtain ⟨c, hcmem, rfl⟩ := List.mem_map.mp hpr
    have hct : c.type = "worker" := by simpa using (List.mem_filter.mp hcmem).2
    obtain ⟨hn1, hi1⟩ := generateComponentSpec_worker
      ⟨appName, "production", pinfo, arch, [], []⟩ c url branch hct
    obtain ⟨hn2, hi2⟩ := generateComponentSpec_worker
      ⟨appName, "test", pinfo, arch, [], []⟩ c url branch hct
    simp only at hi1 hi2
    simp [hn1, hn2, hi1, hi2]

/-! ## C1: the deploy template -/

/-- C1 (amended): the deploy template strips `instance_count` and
`autoscaling` from every service, and forces `production = False` (dropping
the cluster name) on every `PG` and `VALKEY` database entry; MySQL and
MongoDB entries keep `production = True` and their cluster name
(`C1_claim_counterexample`). -/
theorem C1_amended (g : AppSpecGenerator) (url : String) :
    ((generateDeployTemplate g url).1.services.all
      (fun s => s.instance_count == none && s.autoscaling == none) = true) ∧
    ((generateDeployTemplate g url).1.databases.all
      (fun db => !(db.engine == "PG" || db.engine == "VALKEY") ||
        (!db.production && db.cluster_name == none)) = true) := by
  have hsvc : (generateDeployTemplate g url).1.services =
      (generate g (some url) "main").1.services.map
        (fun s : ComponentSpec => { s with instance_count := none, autoscaling := none }) := rfl
  have hdbs : (generateDeployTemplate g url).1.databases =
      (generate g (some url) "main").1.databases.map
        (fun db : DatabaseSpec => if db.engine == "PG" || db.engine == "VALKEY" then
          { db with production := false, cluster_name := none } else db) := rfl
  constructor
  · rw [hsvc, List.all_eq_true]
    intro s hs
    obtain ⟨s0, _, rfl⟩ := List.mem_map.mp hs
    rfl
  · rw [hdbs, List.all_eq_true]
    intro db hdb
    obtain ⟨db0, _, rfl⟩ := List.mem_map.mp hdb
    by_cases he : (db0.engine == "PG" || db0.engine == "VALKEY") = true
    · rw [if_pos he]
      simp only [show ({ db0 with production := false, cluster_name := none } :
        DatabaseSpec).engine = db0.engine from rfl]
      simp [he]
    · rw [if_neg he]
      simp only [Bool.not_eq_true] at he
      simp [he]

/-- C1, counterexample: on a repository with a MySQL dependency, the deploy
template keeps `production = True` and the cluster name on the MySQL entry
— only `PG`/`VALKEY` entries are forced to non-production. -/
theorem C1_claim_counterexample :
    (initGenerator unknownPinfo exMySQLRepo "app" "test").map
      (fun g => ((generateDeployTemplate g "https://example.com/repo").1.databases.map
        (fun db => (db.engine, db.production, db.cluster_name)))) =
      .ok [("MYSQL", true, some "app-mysql")] := by
  decide

/-! ## C10: migration report before `generate()` -/

/-- C10 (confirmed): a freshly constructed generator reports no unmapped
items and `requires_user_decision = False` (the RabbitMQ pass runs only
inside `generate()`); consequently the checklist, which builds fresh
generators and never calls `generate()`, renders a zero decision count and
omits the decision section whenever analysis succeeds. -/
theorem C10_fresh_report (pinfo : DetectionResult) (r : Repo) (appName env : String)
    (g : AppSpecGenerator) (h : initGenerator pinfo r appName env = .ok g) :
    (getMigrationReport g).unmapped_items = [] ∧
    (getMigrationReport g).requires_user_decision = false ∧
    checklistDecisionSlice pinfo r appName =
      (analyze r).map (fun _ => ("| Requires Decision | 0 |", false)) := by
  have hg : g.unmapped_items = [] := by
    rw [initGenerator] at h
    cases ha : analyze r with
    | error e => rw [ha] at h; exact Except.noConfusion h
    | ok arch =>
        rw [ha] at h
        have hrep := Except.ok.inj h
        rw [← hrep]
  refine ⟨by simp [getMigrationReport, hg], by simp [getMigrationReport, hg], ?_⟩
  rw [checklistDecisionSlice]
  cases ha : analyze r with
  | error e =>
      show (do
        let testGenerator ← initGenerator pinfo r appName "test"
        let _prodGenerator ← initGenerator pinfo r appName "production"
        Except.ok ("| Requires Decision | " ++ toString testGenerator.unmapped_items.length
          ++ " |", !testGenerator.unmapped_items.isEmpty)) = _
      rw [initGenerator, initGenerator, ha]
      rfl
  | ok arch =>
      show (do
        let testGenerator ← initGenerator pinfo r appName "test"
        let _prodGenerator ← initGenerator pinfo r appName "production"
        Except.ok ("| Requires Decision | " ++ toString testGenerator.unmapped_items.length
          ++ " |", !testGenerator.unmapped_items.isEmpty)) = _
      rw [initGenerator, initGenerator, ha]
      show Except.ok ("| Requires Decision | "
          ++ toString ([] : List UnmappedItem).length ++ " |",
          !([] : List UnmappedItem).isEmpty) =
        Except.ok ("| Requires Decision | 0 |", false)
      rw [show ("| Requires Decision | " ++ toString ([] : List UnmappedItem).length ++ " |")
        = "| Requires Decision | 0 |" from by decide]
      rfl

/-- Witness for `C10_fresh_report`: a repository declaring a RabbitMQ queue
(an unmappable dependency) still reports zero decisions before
`generate()` runs. -/
theorem C10_witness :
    (getMigrationReport exRabbitGen).unmapped_items = [] ∧
    (getMigrationReport exRabbitGen).requires_user_decision = false ∧
    checklistDecisionSlice unknownPinfo exRabbitRepo "app" =
      (analyze exRabbitRepo).map (fun _ => ("| Requires Decision | 0 |", false)) :=
  C10_fresh_report unknownPinfo exRabbitRepo "app" "test" exRabbitGen (by decide)

end Migration
